import Mathlib

/-!
# T-Vision chat client: session synchronisation and reply disambiguation

A shallow embedding of the client-side controller of `frontend/src/App.jsx` and of the
transport adapter `chatService.sendMessage` of `frontend/src/services/api.js`.

Every asynchronous handler is split at its `await`: the part that runs synchronously with
the call returns the new component state together with the backend calls it issued (each
carrying the variables its continuation closes over), and a `resolve` function is the
continuation, run on the state found when the backend call settles. A handler started by
a user event reads the state of the latest render; what a continuation reads from its
closure instead of the current state (`newMessages`, `sessionId`, `user`) is passed to it
explicitly. Clock readings and minted object URLs are inputs of the step that takes them.

JavaScript values that the client only forwards are kept dynamically typed (`JsVal`);
record shapes that the client destructures (history rows, stored messages, the start and
upload replies) follow the backend interface.
-/

namespace TVision

/-! ## JavaScript values -/

/-- Exceptions and promise rejections the client can observe. -/
inductive JsError
  | networkFailure
  | backendError
  | syntaxError
  | typeError
  | uriError
  | readError
  deriving DecidableEq, Repr

/-- Values produced by `JSON.parse`. An object is the list of its properties, each name
occurring once. -/
inductive Json
  | null
  | bool (b : Bool)
  | num (q : ℚ)
  | str (s : String)
  | arr (items : List Json)
  | obj (fields : List (String × Json))

/-- A `Blob`: its MIME type, its size in bytes and its bytes decoded as UTF-8 text. -/
structure Blob where
  type : String
  size : Nat
  content : String
  deriving DecidableEq, Repr

/-- A `File` picked by the user. -/
structure File where
  name : String
  type : String
  size : Nat
  deriving DecidableEq, Repr

/-- The JavaScript values handled by the client: `undefined`, a value that came out of
JSON (or a literal of the same kind), a `Blob`, or an object assembled by client code. -/
inductive JsVal
  | undefined
  | json (j : Json)
  | blob (b : Blob)
  | record (fields : List (String × JsVal))

/-- A string value. -/
def JsVal.str (s : String) : JsVal := .json (.str s)

/-- The value `null`. -/
def JsVal.null : JsVal := .json .null

/-- JavaScript truthiness (`if (v)`, `v ? a : b`, `!v`). -/
def JsVal.truthy : JsVal → Bool
  | .undefined => false
  | .json .null => false
  | .json (.bool b) => b
  | .json (.num q) => decide (q ≠ 0)
  | .json (.str s) => decide (s ≠ "")
  | .json (.arr _) => true
  | .json (.obj _) => true
  | .blob _ => true
  | .record _ => true

/-- Strict equality with a string literal: `v === 'lit'`. -/
def JsVal.isStr (v : JsVal) (lit : String) : Bool :=
  match v with
  | .json (.str s) => decide (s = lit)
  | _ => false

/-- Property read `v.name` / `v['name']` for the property names the client uses
(`type`, `image`, `headers`, `message`, `content-type`, `x-message`), none of which is
defined on a built-in prototype. Reading a property of `undefined` or `null` throws a
`TypeError`; a missing property reads as `undefined`. -/
def JsVal.get (v : JsVal) (name : String) : Except JsError JsVal :=
  match v with
  | .undefined => .error .typeError
  | .json .null => .error .typeError
  | .json (.obj fields) =>
      match fields.lookup name with
      | some j => .ok (.json j)
      | none => .ok .undefined
  | .json _ => .ok .undefined
  | .blob b =>
      if name = "type" then .ok (.str b.type)
      else if name = "size" then .ok (.json (.num b.size))
      else .ok .undefined
  | .record fields =>
      match fields.lookup name with
      | some w => .ok w
      | none => .ok .undefined

/-- `String.prototype.startsWith` with a literal first argument. -/
def startsWith (s lit : String) : Bool := lit.data.isPrefixOf s.data

/-- ECMAScript `WhiteSpace` and `LineTerminator` code points, the characters removed by
`String.prototype.trim`. -/
def isJsWhiteSpace (c : Char) : Bool :=
  let n := c.toNat
  n = 0x09 || n = 0x0A || n = 0x0B || n = 0x0C || n = 0x0D || n = 0x20 || n = 0xA0 ||
  n = 0x1680 || (0x2000 ≤ n && n ≤ 0x200A) || n = 0x2028 || n = 0x2029 || n = 0x202F ||
  n = 0x205F || n = 0x3000 || n = 0xFEFF

/-- `String.prototype.trim`. -/
def trim (s : String) : String :=
  ⟨((s.data.dropWhile isJsWhiteSpace).reverse.dropWhile isJsWhiteSpace).reverse⟩

/-- The deterministic built-ins of the browser the client calls. -/
structure Platform where
  /-- `FileReader.readAsText` on the response body; a failed read fires `onerror`. -/
  readAsText : Blob → Except JsError String
  /-- `JSON.parse`. -/
  jsonParse : String → Except JsError Json
  /-- `decodeURIComponent` on a string. -/
  decodeURIComponent : String → Except JsError String
  /-- The conversion of a non-string value to a string (`ToString`), which can throw. -/
  toStr : JsVal → Except JsError String
  /-- The rendering `new Date(v).toLocaleTimeString()` of a backend timestamp. -/
  toLocaleTimeString : JsVal → String
  /-- The rendering `new Date(v).toLocaleDateString()` of a backend timestamp. -/
  toLocaleDateString : JsVal → String

/-- String conversion of an argument: a string is taken as is. -/
def JsVal.toStr (P : Platform) (v : JsVal) : Except JsError String :=
  match v with
  | .json (.str s) => .ok s
  | w => P.toStr w

/-- The call `decodeURIComponent(v)`: the argument is converted to a string first. -/
def decodeURIComponent (P : Platform) (v : JsVal) : Except JsError String :=
  match JsVal.toStr P v with
  | .ok s => P.decodeURIComponent s
  | .error e => .error e

/-- The construction `new Blob([part], { type })`: a `Blob` part is taken as is and an
absent type defaults to the empty string; every other part or type is converted to a
string, which can throw. -/
def newBlob (P : Platform) (part type : JsVal) : Except JsError Unit :=
  let partOk : Except JsError Unit :=
    match part with
    | .blob _ => .ok ()
    | w => (JsVal.toStr P w).map (fun _ => ())
  match partOk with
  | .error e => .error e
  | .ok _ =>
      match type with
      | .undefined => .ok ()
      | w => (JsVal.toStr P w).map (fun _ => ())

/-! ## Transport adapter (`services/api.js`) -/

/-- What `api.post` resolves with: the body requested as a `Blob`, and the response
headers under their lower-cased names. -/
structure HttpResponse where
  data : Blob
  headers : List (String × String)
  deriving DecidableEq, Repr

/-- The `response.headers` object. -/
def HttpResponse.headersObject (response : HttpResponse) : JsVal :=
  .record (response.headers.map (fun kv => (kv.1, JsVal.str kv.2)))

/-- The object `{ type: 'image', image: response.data, headers: response.headers }`. -/
def imageResult (response : HttpResponse) : JsVal :=
  .record [("type", .str "image"), ("image", .blob response.data),
    ("headers", response.headersObject)]

/-- The test `contentType && contentType.startsWith('image/')`. -/
def isImageContentType (contentType : Option String) : Bool :=
  match contentType with
  | none => false
  | some ct => decide (ct ≠ "") && startsWith ct "image/"

/-- The adapter `chatService.sendMessage`, from the settled `api.post` call on: a rejected
call rejects the adapter; an `image/*` response resolves with the image object; any other
response is read as text and parsed as JSON, a read or parse failure rejecting the call. -/
def chatService.sendMessage (P : Platform) (http : Except JsError HttpResponse) :
    Except JsError JsVal :=
  match http with
  | .error e => .error e
  | .ok response =>
      let contentType := response.headers.lookup "content-type"
      if isImageContentType contentType then
        .ok (imageResult response)
      else
        match P.readAsText response.data with
        | .error e => .error e
        | .ok text =>
            match P.jsonParse text with
            | .error e => .error e
            | .ok data => .ok (.json data)

/-! ## Controller state (`App.jsx`) -/

/-- Session identifiers are opaque backend keys. Every value of this type is truthy in the
JavaScript sense, so `!sessionId` holds exactly when the state holds `null` (`none`). -/
structure SessionId where
  key : String
  deriving DecidableEq, Repr

/-- The authenticated identity `{id, username}`. -/
structure User where
  id : Nat
  username : String
  deriving DecidableEq, Repr

/-- A Timeline entry. A property that the object literal does not set is `undefined`
(`false` for `downloadable`). -/
structure Message where
  role : JsVal
  text : JsVal := .undefined
  image : JsVal := .undefined
  downloadable : Bool := false
  classification : JsVal := .undefined
  timestamp : String

/-- A row of `GET /api/chat/history/{userId}`. -/
structure SessionSummary where
  id : SessionId
  title : JsVal
  updated_at : JsVal

/-- A History entry: the row spread into a new object, plus its rendered date `time`. -/
structure HistoryEntry where
  id : SessionId
  title : JsVal
  updated_at : JsVal
  time : String

/-- A row of `GET /api/chat/session/{id}`. -/
structure StoredMessage where
  role : JsVal
  content : JsVal
  timestamp : JsVal
  image_path : JsVal

/-- The reply of `POST /api/chat/start`. -/
structure StartReply where
  session_id : SessionId
  message : JsVal

/-- The reply of `POST /api/chat/upload`. -/
structure UploadReply where
  message : JsVal
  probabilities : JsVal

/-- The component state of `App` (the `useState` cells that the handlers touch). -/
structure State where
  user : Option User
  sessionId : Option SessionId
  messages : List Message
  inputValue : String
  isLoading : Bool
  currentImage : Option String
  isSidebarOpen : Bool
  classification : JsVal
  history : List HistoryEntry

/-- The state of a freshly mounted `App`. -/
def State.initial : State :=
  { user := none, sessionId := none, messages := [], inputValue := "", isLoading := false,
    currentImage := none, isSidebarOpen := false, classification := .null, history := [] }

/-- A backend call in flight, with the variables its continuation closes over. -/
inductive Pending
  | startChat (userId : Option Nat)
  | loadSession (id : SessionId)
  | deleteSession (session : HistoryEntry) (sessionId : Option SessionId) (user : Option User)
  | shareSession (id : SessionId)
  | sendMessage (sessionId : Option SessionId) (userMessage : String)
      (newMessages : List Message)
  | uploadImage (sessionId : SessionId) (file : File)
  | getHistory (user : User) (sessionId : Option SessionId)

/-! ## Controller operations -/

/-- The Message shown when `startChat` fails. -/
def startErrorMessage (now : String) : Message :=
  { role := .str "assistant",
    text := .str "❌ Failed to connect to server. Please ensure the backend is running.",
    timestamp := now }

/-- The Message shown when a send fails. -/
def sendErrorMessage (now : String) : Message :=
  { role := .str "assistant",
    text := .str "❌ Sorry, I encountered an error. Please try again.",
    timestamp := now }

/-- The Message shown when an upload fails. -/
def uploadErrorMessage (now : String) : Message :=
  { role := .str "assistant",
    text := .str "❌ Failed to upload image. Please try again.",
    timestamp := now }

/-- The synchronous part of `startNewChat`, up to `await chatService.startChat(userId)`.
The argument `user` is the identity the closure was created with. -/
def startNewChat (user : Option User) (s : State) : State × List Pending :=
  ({ s with isLoading := true }, [.startChat (user.map (fun u => u.id))])

/-- The continuation of `startNewChat`; `now` is the clock reading it takes. -/
def startNewChat.resolve (now : String) (outcome : Except JsError StartReply) (s : State) :
    State :=
  match outcome with
  | .ok data =>
      { s with
        sessionId := some data.session_id
        messages := [{ role := .str "assistant", text := data.message, timestamp := now }]
        currentImage := none
        classification := .null
        isLoading := false }
  | .error _ =>
      { s with messages := [startErrorMessage now], isLoading := false }

/-- The synchronous part of `handleLoadSession`, up to `await chatService.loadSession`. -/
def handleLoadSession (session : HistoryEntry) (s : State) : State × List Pending :=
  ({ s with isLoading := true, sessionId := some session.id, isSidebarOpen := false },
    [.loadSession session.id])

/-- The mapping of a stored message to a Timeline entry in `handleLoadSession`. -/
def toUiMessage (P : Platform) (m : StoredMessage) : Message :=
  { role := m.role
    text := m.content
    timestamp := P.toLocaleTimeString m.timestamp
    image := if m.image_path.truthy then m.image_path else .null }

/-- The continuation of `handleLoadSession`. -/
def handleLoadSession.resolve (P : Platform) (outcome : Except JsError (List StoredMessage))
    (s : State) : State :=
  match outcome with
  | .ok msgs => { s with messages := msgs.map (toUiMessage P), isLoading := false }
  | .error _ => { s with isLoading := false }

/-- The synchronous part of `handleDeleteSession`; `confirmed` is the answer given to the
`confirm` dialog. -/
def handleDeleteSession (confirmed : Bool) (session : HistoryEntry) (s : State) :
    State × List Pending :=
  if !confirmed then (s, [])
  else (s, [.deleteSession session s.sessionId s.user])

/-- The continuation of `handleDeleteSession`; `sessionId` and `user` are the values the
handler closed over when it was called. -/
def handleDeleteSession.resolve (session : HistoryEntry) (sessionId : Option SessionId)
    (user : Option User) (outcome : Except JsError Unit) (s : State) : State × List Pending :=
  match outcome with
  | .ok _ =>
      let s1 := { s with history := s.history.filter (fun e => decide (e.id ≠ session.id)) }
      if sessionId = some session.id then startNewChat user s1 else (s1, [])
  | .error _ => (s, [])

/-- The synchronous part of `handleShareSession`. -/
def handleShareSession (session : HistoryEntry) (s : State) : State × List Pending :=
  (s, [.shareSession session.id])

/-- The synchronous part of `handleSendMessage`, up to `await chatService.sendMessage`;
`now` is the clock reading taken for the user Message. -/
def handleSendMessage (now : String) (s : State) : State × List Pending :=
  if trim s.inputValue = "" || s.isLoading then (s, [])
  else
    let userMessage := trim s.inputValue
    let newMessages := s.messages ++
      [{ role := .str "user", text := .str userMessage, timestamp := now }]
    ({ s with inputValue := "", messages := newMessages, isLoading := true },
      [.sendMessage s.sessionId userMessage newMessages])

/-- What the continuation of a send observes of its environment: the clock readings for
the bot Message, the caption Message and the error Message, and the URL minted by
`URL.createObjectURL`. -/
structure SendEnv where
  botTime : String
  captionTime : String
  errorTime : String
  url : String

/-- The `try` block of `handleSendMessage` after the `await`: the Timeline it passes to
`setMessages`, or the exception it throws. -/
def handleSendMessage.tryBlock (P : Platform) (env : SendEnv) (newMessages : List Message)
    (outcome : Except JsError JsVal) : Except JsError (List Message) := do
  let response ← outcome
  let botMessage : Message := { role := .str "assistant", timestamp := env.botTime }
  let type ← response.get "type"
  if type.isStr "image" then
    let image ← response.get "image"
    let headers ← response.get "headers"
    let contentType ← headers.get "content-type"
    newBlob P image contentType
    let botMessage := { botMessage with image := .str env.url, downloadable := true }
    let xMessage ← headers.get "x-message"
    if xMessage.truthy then
      let msg :=
        match decodeURIComponent P xMessage with
        | .ok decoded => .str decoded
        | .error _ => xMessage
      let pushed := newMessages ++
        [{ role := .str "assistant", text := msg, timestamp := env.captionTime }]
      pure (pushed ++ [botMessage])
    else
      pure (newMessages ++ [botMessage])
  else
    let message ← response.get "message"
    pure (newMessages ++ [{ botMessage with text := message }])

/-- The continuation of `handleSendMessage`: `try`, `catch` and `finally`. `newMessages`
is the array the handler built before the `await`. -/
def handleSendMessage.resolve (P : Platform) (env : SendEnv) (newMessages : List Message)
    (outcome : Except JsError JsVal) (s : State) : State :=
  match handleSendMessage.tryBlock P env newMessages outcome with
  | .ok messages => { s with messages := messages, isLoading := false }
  | .error _ =>
      { s with messages := newMessages ++ [sendErrorMessage env.errorTime], isLoading := false }

/-- The synchronous part of `handleFileUpload`; `url` is the URL minted by
`URL.createObjectURL(file)` and `now` the clock reading for the upload Message. -/
def handleFileUpload (now url : String) (file : File) (s : State) : State × List Pending :=
  match s.sessionId with
  | none => (s, [])
  | some sessionId =>
      if s.isLoading then (s, [])
      else
        ({ s with
          currentImage := some url
          messages := s.messages ++ [{ role := .str "user", image := .str url, timestamp := now }]
          isLoading := true },
          [.uploadImage sessionId file])

/-- The continuation of `handleFileUpload`. -/
def handleFileUpload.resolve (now : String) (outcome : Except JsError UploadReply)
    (s : State) : State :=
  match outcome with
  | .ok response =>
      { s with
        classification := response.probabilities
        messages := s.messages ++
          [{ role := .str "assistant", text := response.message,
             classification := response.probabilities, timestamp := now }]
        isLoading := false }
  | .error _ =>
      { s with
        messages := s.messages ++ [uploadErrorMessage now]
        currentImage := none
        isLoading := false }

/-- The call `refreshHistory()` made by the effect on `user`. -/
def refreshHistory (s : State) : State × List Pending :=
  match s.user with
  | some user => (s, [.getHistory user s.sessionId])
  | none => (s, [])

/-- The History entry made of a fetched row. -/
def toHistoryEntry (P : Platform) (row : SessionSummary) : HistoryEntry :=
  { id := row.id, title := row.title, updated_at := row.updated_at,
    time := P.toLocaleDateString row.updated_at }

/-- The continuation of `refreshHistory`; `user` and `sessionId` are the values it closed
over. -/
def refreshHistory.resolve (P : Platform) (user : User) (sessionId : Option SessionId)
    (outcome : Except JsError (List SessionSummary)) (s : State) : State × List Pending :=
  match outcome with
  | .ok sessions =>
      let formatted := sessions.map (toHistoryEntry P)
      let s1 := { s with history := formatted }
      match formatted, sessionId with
      | first :: _, none => handleLoadSession first s1
      | [], none => startNewChat (some user) s1
      | _, some _ => (s1, [])
  | .error _ => (s, [])

/-- The handler `handleLogin` followed by the effect on `user` it triggers. -/
def handleLogin (userData : User) (s : State) : State × List Pending :=
  refreshHistory { s with user := some userData }

/-- The handler `handleLogout`. -/
def handleLogout (s : State) : State × List Pending :=
  ({ s with user := none }, [])

/-- The validation `handleFile` of `components/ImageUpload.jsx`: whether `onUpload(file)`
is called. -/
def ImageUpload.handleFile (file : File) : Bool :=
  if !startsWith file.type "image/" then false
  else if file.size > 10 * 1024 * 1024 then false
  else true

/-! ## Operations run to completion -/

/-- A send run to completion: the handler is called on `s` and, when it issued the backend
call, its continuation runs with the adapter's result for the settled `api.post` call. -/
def sendMessageRun (P : Platform) (env : SendEnv) (now : String)
    (http : Except JsError HttpResponse) (s : State) : State :=
  match handleSendMessage now s with
  | (s1, [.sendMessage _ _ newMessages]) =>
      handleSendMessage.resolve P env newMessages (chatService.sendMessage P http) s1
  | (s1, _) => s1

/-- A deletion run to completion: the handler is called on `s` with the user's answer and,
when it issued the backend call, its continuation runs with the call's outcome. -/
def deleteSessionRun (confirmed : Bool) (outcome : Except JsError Unit)
    (session : HistoryEntry) (s : State) : State × List Pending :=
  match handleDeleteSession confirmed session s with
  | (s1, [.deleteSession target sessionId user]) =>
      handleDeleteSession.resolve target sessionId user outcome s1
  | r => r

/-- A session load run to completion. -/
def loadSessionRun (P : Platform) (outcome : Except JsError (List StoredMessage))
    (session : HistoryEntry) (s : State) : State :=
  match handleLoadSession session s with
  | (s1, [.loadSession _]) => handleLoadSession.resolve P outcome s1
  | (s1, _) => s1

/-- A `startNewChat` run to completion; `user` is the identity its closure holds. -/
def startNewChatRun (now : String) (outcome : Except JsError StartReply)
    (user : Option User) (s : State) : State :=
  match startNewChat user s with
  | (s1, [.startChat _]) => startNewChat.resolve now outcome s1
  | (s1, _) => s1

/-- An upload run to completion: `now` and `url` are read by the handler, `replyTime` by
its continuation. -/
def uploadImageRun (now url replyTime : String) (outcome : Except JsError UploadReply)
    (file : File) (s : State) : State :=
  match handleFileUpload now url file s with
  | (s1, [.uploadImage _ _]) => handleFileUpload.resolve replyTime outcome s1
  | (s1, _) => s1

/-- An identity load run up to the settled history fetch: `handleLogin`, the effect on
`user`, and the continuation of `refreshHistory` with the fetch outcome. The calls that
the continuation issues (`loadSession` or `startChat`) are returned in flight. -/
def identityLoadRun (P : Platform) (userData : User)
    (outcome : Except JsError (List SessionSummary)) (s : State) : State × List Pending :=
  match handleLogin userData s with
  | (s1, [.getHistory user sessionId]) => refreshHistory.resolve P user sessionId outcome s1
  | r => r

/-! ## Interleaved executions

The controller as a transition system: a user event runs the synchronous part of a
handler and puts the backend calls it issued in flight; a settle event takes one call in
flight, in any order, and runs its continuation on the current state. No handler other
than `handleSendMessage` and `handleFileUpload` tests the busy flag, so the other events
are accepted in every state.

Each Timeline entry is given an owner, the session it belongs to: an entry loaded from
session `id` or greeting its creation belongs to `id`; an entry appended by a send or an
upload belongs to the session the request was addressed to; the error Message of a failed
`startNewChat` belongs to no session. Owners are bookkeeping beside the state and never
read by the handlers. -/

/-- What a settled backend call hands to its continuation, with the clock readings the
continuation takes. -/
inductive Outcome
  | started (now : String) (result : Except JsError StartReply)
  | loaded (result : Except JsError (List StoredMessage))
  | deleted (result : Except JsError Unit)
  | shared
  | sent (env : SendEnv) (http : Except JsError HttpResponse)
  | uploaded (now : String) (result : Except JsError UploadReply)
  | fetched (result : Except JsError (List SessionSummary))

/-- The continuation of a call in flight, on the state found when the call settles, and
the calls the continuation issues; `none` when the outcome is not one of this call. The
continuation of `handleShareSession` touches the clipboard only. -/
def settle (P : Platform) : Pending → Outcome → State → Option (State × List Pending)
  | .startChat _, .started now result, s => some (startNewChat.resolve now result s, [])
  | .loadSession _, .loaded result, s => some (handleLoadSession.resolve P result s, [])
  | .deleteSession session sessionId user, .deleted result, s =>
      some (handleDeleteSession.resolve session sessionId user result s)
  | .shareSession _, .shared, s => some (s, [])
  | .sendMessage _ _ newMessages, .sent env http, s =>
      some (handleSendMessage.resolve P env newMessages (chatService.sendMessage P http) s, [])
  | .uploadImage _ _, .uploaded now result, s =>
      some (handleFileUpload.resolve now result s, [])
  | .getHistory user sessionId, .fetched result, s =>
      some (refreshHistory.resolve P user sessionId result s)
  | _, _, _ => none

/-- The session a Timeline entry belongs to, if any. -/
abbrev Owner := Option SessionId

/-- A call in flight; `captured` are the owners of the Timeline as the handler left it,
which for a send is the array `newMessages` its continuation holds. -/
structure InFlight where
  call : Pending
  captured : List Owner

/-- The component state, the owner of each Timeline entry, and the calls in flight. -/
structure Config where
  state : State
  owners : List Owner
  inflight : List InFlight

/-- User events and settlements of backend calls. -/
inductive Event
  | newChat
  | selectSession (session : HistoryEntry)
  | deleteSession (confirmed : Bool) (session : HistoryEntry)
  | shareSession (session : HistoryEntry)
  | typeText (value : String)
  | send (now : String)
  | upload (now url : String) (file : File)
  | login (userData : User)
  | logout
  | settle (index : Nat) (outcome : Outcome)

/-- The owners of the Timeline after the continuation of `call` has run, `after` being
the state it produced. -/
def settleOwners (call : InFlight) (outcome : Outcome) (owners : List Owner)
    (after : State) : List Owner :=
  match call.call, outcome with
  | .startChat _, .started _ (.ok data) => [some data.session_id]
  | .startChat _, .started _ (.error _) => [none]
  | .loadSession id, .loaded (.ok msgs) => msgs.map (fun _ => some id)
  | .sendMessage sessionId _ newMessages, .sent _ _ =>
      call.captured ++ List.replicate (after.messages.length - newMessages.length) sessionId
  | .uploadImage sessionId _, .uploaded _ _ => owners ++ [some sessionId]
  | _, _ => owners

/-- The configuration after a handler returned `result`, the Timeline now owned as in
`owners`. -/
def Config.issue (c : Config) (result : State × List Pending) (owners : List Owner) :
    Config :=
  { state := result.1
    owners := owners
    inflight := c.inflight ++ result.2.map (fun call => { call := call, captured := owners }) }

/-- One event. `startNewChat` is called from the render that holds the current `user`. -/
def step (P : Platform) (c : Config) : Event → Config
  | .newChat => c.issue (startNewChat c.state.user c.state) c.owners
  | .selectSession session => c.issue (handleLoadSession session c.state) c.owners
  | .deleteSession confirmed session =>
      c.issue (handleDeleteSession confirmed session c.state) c.owners
  | .shareSession session => c.issue (handleShareSession session c.state) c.owners
  | .typeText value => { c with state := { c.state with inputValue := value } }
  | .send now =>
      let result := handleSendMessage now c.state
      c.issue result
        (if result.2.isEmpty then c.owners else c.owners ++ [c.state.sessionId])
  | .upload now url file =>
      let result := handleFileUpload now url file c.state
      c.issue result
        (if result.2.isEmpty then c.owners else c.owners ++ [c.state.sessionId])
  | .login userData => c.issue (handleLogin userData c.state) c.owners
  | .logout => c.issue (handleLogout c.state) c.owners
  | .settle index outcome =>
      match c.inflight[index]? with
      | none => c
      | some call =>
          match settle P call.call outcome c.state with
          | none => c
          | some result =>
              { state := result.1
                owners := settleOwners call outcome c.owners result.1
                inflight := c.inflight.eraseIdx index ++
                  result.2.map (fun next =>
                    { call := next
                      captured := settleOwners call outcome c.owners result.1 }) }

/-- A sequence of events. -/
def run (P : Platform) (c : Config) (events : List Event) : Config :=
  events.foldl (step P) c

/-- The Timeline is consistent with ActiveSession: every entry has an owner slot, and
every entry that belongs to a session belongs to the active one. -/
def Config.Consistent (c : Config) : Prop :=
  c.owners.length = c.state.messages.length ∧
  ∀ id, some id ∈ c.owners → c.state.sessionId = some id

/-- An operation run to completion before anything else happens, with the outcomes of
the backend calls it makes: a deletion may go on to start a chat, an identity load to
load the first session or to start a chat. -/
inductive Operation
  | newChat (now : String) (result : Except JsError StartReply)
  | selectSession (session : HistoryEntry) (result : Except JsError (List StoredMessage))
  | deleteSession (confirmed : Bool) (session : HistoryEntry) (result : Except JsError Unit)
      (now : String) (started : Except JsError StartReply)
  | shareSession (session : HistoryEntry)
  | typeText (value : String)
  | send (now : String) (env : SendEnv) (http : Except JsError HttpResponse)
  | upload (now url : String) (file : File) (replyTime : String)
      (result : Except JsError UploadReply)
  | login (userData : User) (result : Except JsError (List SessionSummary))
      (loaded : Except JsError (List StoredMessage)) (now : String)
      (started : Except JsError StartReply)
  | logout

/-- The events of an operation: the user event, then the settlement of each call it
leads to. A settlement that finds no call of its kind in flight changes nothing. -/
def Operation.events : Operation → List Event
  | .newChat now result => [.newChat, .settle 0 (.started now result)]
  | .selectSession session result => [.selectSession session, .settle 0 (.loaded result)]
  | .deleteSession confirmed session result now started =>
      [.deleteSession confirmed session, .settle 0 (.deleted result),
        .settle 0 (.started now started)]
  | .shareSession session => [.shareSession session, .settle 0 .shared]
  | .typeText value => [.typeText value]
  | .send now env http => [.send now, .settle 0 (.sent env http)]
  | .upload now url file replyTime result =>
      [.upload now url file, .settle 0 (.uploaded replyTime result)]
  | .login userData result loaded now started =>
      [.login userData, .settle 0 (.fetched result), .settle 0 (.loaded loaded),
        .settle 0 (.started now started)]
  | .logout => [.logout]

/-- Whether every session fetch the operation is given succeeds. -/
def Operation.loadsSucceed : Operation → Bool
  | .selectSession _ (.error _) => false
  | .login _ _ (.error _) _ _ => false
  | _ => true

/-- Operations run one at a time, each to completion. -/
def runOperations (P : Platform) (c : Config) (operations : List Operation) : Config :=
  operations.foldl (fun cfg operation => run P cfg operation.events) c

/-! ## Message content -/

/-- A property is set when it is neither absent (`undefined`) nor `null`. -/
def JsVal.isSet : JsVal → Bool
  | .undefined => false
  | .json .null => false
  | _ => true

/-- The data-model invariant of a Message: at least one of text and image is set. -/
def Message.hasContent (m : Message) : Bool :=
  m.text.isSet || m.image.isSet

/-! ## A concrete platform

Used to evaluate the definitions above on concrete inputs. -/

/-- The value of a hexadecimal digit. -/
def hexDigit (c : Char) : Option Nat :=
  let n := c.toNat
  if 48 ≤ n ∧ n ≤ 57 then some (n - 48)
  else if 97 ≤ n ∧ n ≤ 102 then some (n - 87)
  else if 65 ≤ n ∧ n ≤ 70 then some (n - 55)
  else none

/-- Reads one escape `%XX` at the head of the text. -/
def readOctet : List Char → Option (Nat × List Char)
  | c :: a :: b :: rest =>
      if c = '%' then
        match hexDigit a, hexDigit b with
        | some hi, some lo => some (16 * hi + lo, rest)
        | _, _ => none
      else none
  | _ => none

/-- Reads `n` continuation octets `10xxxxxx`, accumulating their payload bits. -/
def readContinuation : Nat → Nat → List Char → Option (Nat × List Char)
  | 0, acc, cs => some (acc, cs)
  | n + 1, acc, cs =>
      match readOctet cs with
      | some (b, rest) =>
          if b / 64 = 2 then readContinuation n (acc * 64 + b % 64) rest else none
      | none => none

/-- The ECMAScript `Decode` loop of `decodeURIComponent` (empty reserved set): every
`%XX` run must spell the UTF-8 encoding of one code point, else a `URIError` is thrown.
The first argument bounds the number of iterations. -/
def percentDecodeLoop : Nat → List Char → Except JsError (List Char)
  | 0, _ => .error .uriError
  | _ + 1, [] => .ok []
  | fuel + 1, c :: cs =>
      if c ≠ '%' then (percentDecodeLoop fuel cs).map (fun out => c :: out)
      else
        match readOctet (c :: cs) with
        | none => .error .uriError
        | some (b, rest) =>
            if b < 128 then (percentDecodeLoop fuel rest).map (fun out => Char.ofNat b :: out)
            else
              let shape : Option (Nat × Nat × Nat) :=
                if b / 32 = 6 then some (1, b % 32, 0x80)
                else if b / 16 = 14 then some (2, b % 16, 0x800)
                else if b / 8 = 30 then some (3, b % 8, 0x10000)
                else none
              match shape with
              | none => .error .uriError
              | some (n, lead, least) =>
                  match readContinuation n lead rest with
                  | none => .error .uriError
                  | some (cp, rest2) =>
                      if cp < least ∨ 0x10FFFF < cp ∨ (0xD800 ≤ cp ∧ cp ≤ 0xDFFF) then
                        .error .uriError
                      else
                        (percentDecodeLoop fuel rest2).map (fun out => Char.ofNat cp :: out)

/-- The function `decodeURIComponent` on a string. -/
def percentDecode (s : String) : Except JsError String :=
  (percentDecodeLoop (s.length + 1) s.data).map (fun out => String.mk out)

/-- The values of `JSON.parse` on the documents used in the examples of this file; every
other text used there is not JSON. -/
def sampleJsonParse (text : String) : Except JsError Json :=
  if text = "\x7b\"message\":\"hi\"\x7d" then
    .ok (.obj [("message", .str "hi")])
  else if text = "\x7b\"type\":\"image\",\"message\":\"hi\"\x7d" then
    .ok (.obj [("type", .str "image"), ("message", .str "hi")])
  else .error .syntaxError

/-- String conversion of the primitive values other than numbers; numbers and objects,
which no example converts, are rendered by a fixed text. -/
def sampleToStr : JsVal → Except JsError String
  | .undefined => .ok "undefined"
  | .json .null => .ok "null"
  | .json (.bool true) => .ok "true"
  | .json (.bool false) => .ok "false"
  | .json (.str s) => .ok s
  | _ => .ok "[object Object]"

/-- A platform for the examples: in-memory bodies always read, `decodeURIComponent` is
`percentDecode`, and timestamps are rendered by a fixed text. -/
def samplePlatform : Platform :=
  { readAsText := fun b => .ok b.content
    jsonParse := sampleJsonParse
    decodeURIComponent := percentDecode
    toStr := sampleToStr
    toLocaleTimeString := fun _ => "10:00:00 AM"
    toLocaleDateString := fun _ => "1/1/2025" }

/-- The environment readings used in the examples. -/
def sampleEnv : SendEnv :=
  { botTime := "10:00:02 AM", captionTime := "10:00:03 AM", errorTime := "10:00:04 AM",
    url := "blob:http://localhost/0001" }

/-- A logged-in, idle state with one greeting on screen and `text` typed in the box. -/
def sampleState (text : String) : State :=
  { State.initial with
    user := some { id := 7, username := "ada" }
    sessionId := some { key := "s1" }
    messages := [{ role := .str "assistant", text := .str "Hello!", timestamp := "9:59:00 AM" }]
    inputValue := text }

/-- A JSON text reply `\x7b"message":"hi"\x7d`. -/
def sampleJsonResponse : HttpResponse :=
  { data := { type := "application/json", size := 16,
              content := "\x7b\"message\":\"hi\"\x7d" }
    headers := [("content-type", "application/json")] }

/-- A JSON reply whose object carries a `type` property equal to `"image"`. -/
def sampleTaggedJsonResponse : HttpResponse :=
  { data := { type := "application/json", size := 31,
              content := "\x7b\"type\":\"image\",\"message\":\"hi\"\x7d" }
    headers := [("content-type", "application/json")] }

/-- A reply that claims no image type and whose body is not JSON. -/
def sampleHtmlResponse : HttpResponse :=
  { data := { type := "text/html", size := 13, content := "<html></html>" }
    headers := [("content-type", "text/html")] }

/-- An image reply with the caption header `xMessage`. -/
def sampleImageResponse (xMessage : String) : HttpResponse :=
  { data := { type := "image/png", size := 4, content := "\x89PNG" }
    headers := [("content-type", "image/png"), ("x-message", xMessage)] }

/-- A History entry with the given key. -/
def sampleEntry (key title : String) : HistoryEntry :=
  { id := { key := key }, title := .str title, updated_at := .str "2025-01-01T10:00:00",
    time := "1/1/2025" }

/-- The state `sampleState ""` with three sessions in History, the first one active. -/
def sampleStateWithHistory : State :=
  { sampleState "" with
    history := [sampleEntry "s1" "A", sampleEntry "s2" "B", sampleEntry "s3" "C"] }

/-- Two stored messages: a text question and an answer that carries an image path. -/
def sampleStoredMessages : List StoredMessage :=
  [{ role := .str "user", content := .str "draw a cat",
     timestamp := .str "2025-01-01T10:00:00", image_path := .null },
   { role := .str "assistant", content := .str "Here you go",
     timestamp := .str "2025-01-01T10:00:05", image_path := .str "/static/cat.png" }]

/-- A picked image file. -/
def sampleFile : File := { name := "cat.png", type := "image/png", size := 2048 }

/-- A successful classification reply. -/
def sampleUploadReply : UploadReply :=
  { message := .str "This looks like a cat.",
    probabilities := .json (.obj [("is_cat", .num 1)]) }

/-- A successful start reply. -/
def sampleStartReply : StartReply :=
  { session_id := { key := "s9" }, message := .str "Hi, how can I help?" }

/-- Two fetched history rows, most recent first. -/
def sampleRows : List SessionSummary :=
  [{ id := { key := "s2" }, title := .str "B", updated_at := .str "2025-01-02T10:00:00" },
   { id := { key := "s1" }, title := .str "A", updated_at := .str "2025-01-01T10:00:00" }]

/-- Session `s1` active and idle, its greeting on screen, three sessions in History. -/
def sampleConfig : Config :=
  { state := sampleStateWithHistory, owners := [some { key := "s1" }], inflight := [] }

/-- An upload is started under `s1`, session `s2` is selected and loaded while the upload
is in flight, then the upload settles. -/
def uploadThenSwitch : List Event :=
  [.upload "10:00:00 AM" "blob:http://localhost/0002" sampleFile,
   .selectSession (sampleEntry "s2" "B"),
   .settle 1 (.loaded (.ok sampleStoredMessages)),
   .settle 0 (.uploaded "10:00:05 AM" (.ok sampleUploadReply))]

/-- A message is sent under `s1`, session `s2` is selected and loaded while the send is
in flight, then the send settles. -/
def sendThenSwitch : List Event :=
  [.typeText "hello",
   .send "10:00:01 AM",
   .selectSession (sampleEntry "s2" "B"),
   .settle 1 (.loaded (.ok sampleStoredMessages)),
   .settle 0 (.sent sampleEnv (.ok sampleJsonResponse))]

/-- A freshly mounted component: nobody logged in, empty Timeline, nothing in flight. -/
def sampleStart : Config :=
  { state := State.initial, owners := [], inflight := [] }

/-- A session of sequential use: login (the first session of the history is loaded), a
message sent and answered, an image uploaded and classified. -/
def sampleOperations : List Operation :=
  [.login { id := 7, username := "ada" } (.ok sampleRows) (.ok sampleStoredMessages)
     "10:00:00 AM" (.ok sampleStartReply),
   .typeText "hello",
   .send "10:00:01 AM" sampleEnv (.ok sampleJsonResponse),
   .upload "10:00:10 AM" "blob:http://localhost/0002" sampleFile "10:00:15 AM"
     (.ok sampleUploadReply)]

/-- An image file of exactly 10 MB. -/
def sampleTenMegabyteFile : File :=
  { name := "big.png", type := "image/png", size := 10485760 }

/-- The platform of the examples, which also parses the empty JSON object. -/
def sampleEmptyObjectPlatform : Platform :=
  { samplePlatform with
    jsonParse := fun text =>
      if text = "\x7b\x7d" then .ok (.obj []) else sampleJsonParse text }

/-- A JSON reply whose body is the empty object. -/
def sampleEmptyObjectResponse : HttpResponse :=
  { data := { type := "application/json", size := 2, content := "\x7b\x7d" }
    headers := [("content-type", "application/json")] }

/-- A stored message with neither content nor image path. -/
def sampleEmptyStoredMessage : StoredMessage :=
  { role := .str "assistant", content := .null, timestamp := .str "2025-01-01T10:00:00",
    image_path := .null }

/-! ## Theorems -/

/-- The user Message that `handleSendMessage` appends for the typed text. -/
theorem handleSendMessage_accepted (now : String) (s : State)
    (htext : trim s.inputValue ≠ "") (hidle : s.isLoading = false) :
    handleSendMessage now s =
      ({ s with
          inputValue := ""
          messages := s.messages ++
            [{ role := .str "user", text := .str (trim s.inputValue), timestamp := now }]
          isLoading := true },
        [.sendMessage s.sessionId (trim s.inputValue)
          (s.messages ++
            [{ role := .str "user", text := .str (trim s.inputValue), timestamp := now }])]) := by
  simp [handleSendMessage, htext, hidle]

theorem handleSendMessage_rejected (now : String) (s : State)
    (h : ¬ (trim s.inputValue ≠ "" ∧ s.isLoading = false)) :
    handleSendMessage now s = (s, []) := by
  have h2 : trim s.inputValue = "" ∨ s.isLoading = true := by
    by_cases ht : trim s.inputValue = ""
    · exact Or.inl ht
    · right
      cases hl : s.isLoading
      · exact absurd ⟨ht, hl⟩ h
      · rfl
  rcases h2 with h2 | h2 <;> simp [handleSendMessage, h2]

/-- C1: `sendMessage` appends exactly one user Message carrying the trimmed text and
sets the busy flag, synchronously with the call, if and only if the trimmed text is
non-empty and the busy flag is clear (it then issues exactly one backend call); in every
other case session id, Timeline, History and busy flag are unchanged and no backend call
is issued. -/
theorem sendMessage_appends_iff_accepted (now : String) (s : State) :
    (((handleSendMessage now s).1.messages = s.messages ++
          [{ role := .str "user", text := .str (trim s.inputValue), timestamp := now }] ∧
        (handleSendMessage now s).1.isLoading = true) ↔
      (trim s.inputValue ≠ "" ∧ s.isLoading = false)) ∧
    ((trim s.inputValue ≠ "" ∧ s.isLoading = false) →
      (handleSendMessage now s).2 =
        [.sendMessage s.sessionId (trim s.inputValue) (handleSendMessage now s).1.messages]) ∧
    (¬ (trim s.inputValue ≠ "" ∧ s.isLoading = false) →
      (handleSendMessage now s).1.sessionId = s.sessionId ∧
      (handleSendMessage now s).1.messages = s.messages ∧
      (handleSendMessage now s).1.history = s.history ∧
      (handleSendMessage now s).1.isLoading = s.isLoading ∧
      (handleSendMessage now s).2 = []) := by
  refine ⟨⟨?_, ?_⟩, ?_, ?_⟩
  · intro h
    by_contra hn
    rw [handleSendMessage_rejected now s hn] at h
    have hlen := congrArg List.length h.1
    simp at hlen
  · intro h
    rw [handleSendMessage_accepted now s h.1 h.2]
    exact ⟨rfl, rfl⟩
  · intro h
    rw [handleSendMessage_accepted now s h.1 h.2]
  · intro h
    rw [handleSendMessage_rejected now s h]
    exact ⟨rfl, rfl, rfl, rfl, rfl⟩

theorem sendMessage_appends_iff_accepted_witness :
    (handleSendMessage "10:00:00 AM" (sampleState "  hello ")).2 =
        [.sendMessage (some { key := "s1" }) "hello"
          (handleSendMessage "10:00:00 AM" (sampleState "  hello ")).1.messages] ∧
    (handleSendMessage "10:00:00 AM" (sampleState "   ")).2 = [] :=
  ⟨(sendMessage_appends_iff_accepted "10:00:00 AM" (sampleState "  hello ")).2.1
      ⟨by decide, rfl⟩,
    ((sendMessage_appends_iff_accepted "10:00:00 AM" (sampleState "   ")).2.2
      (fun h => h.1 (by rfl))).2.2.2.2⟩

/-! ### The transport adapter -/

theorem startsWith_image_ne_empty (ct : String) (h : startsWith ct "image/" = true) :
    ct ≠ "" := by
  intro hct
  subst hct
  exact absurd h (by decide)

theorem isImageContentType_iff (contentType : Option String) :
    isImageContentType contentType = true ↔
      ∃ ct, contentType = some ct ∧ startsWith ct "image/" = true := by
  cases contentType with
  | none => simp [isImageContentType]
  | some ct =>
      simp only [isImageContentType, Bool.and_eq_true, decide_eq_true_eq, Option.some.injEq]
      constructor
      · intro h
        exact ⟨ct, rfl, h.2⟩
      · rintro ⟨c, hc, hs⟩
        subst hc
        exact ⟨startsWith_image_ne_empty _ hs, hs⟩

theorem sendMessage_adapter_image (P : Platform) (response : HttpResponse)
    (h : isImageContentType (response.headers.lookup "content-type") = true) :
    chatService.sendMessage P (.ok response) = .ok (imageResult response) := by
  simp [chatService.sendMessage, h]

theorem sendMessage_adapter_other (P : Platform) (response : HttpResponse) (text : String)
    (h : isImageContentType (response.headers.lookup "content-type") = false)
    (hread : P.readAsText response.data = .ok text) :
    chatService.sendMessage P (.ok response) = (P.jsonParse text).map JsVal.json := by
  simp only [chatService.sendMessage, h, hread]
  cases P.jsonParse text <;> rfl

theorem lookup_headersObject (response : HttpResponse) (name : String) :
    response.headersObject.get name =
      .ok (match response.headers.lookup name with
           | some v => JsVal.str v
           | none => JsVal.undefined) := by
  have key : ∀ l : List (String × String),
      (l.map (fun kv => (kv.1, JsVal.str kv.2))).lookup name =
        (l.lookup name).map JsVal.str := by
    intro l
    induction l with
    | nil => rfl
    | cons kv rest ih =>
        simp only [List.map, List.lookup]
        cases hk : (name == kv.1) <;> simp [ih]
  simp only [HttpResponse.headersObject, JsVal.get, key]
  cases response.headers.lookup name <;> rfl

/-- C4: for every backend response, the adapter returns the binary-image result, that is
the object whose `type` is 'image', whose `image` is the raw body and whose `headers` are
the response headers, if and only if the response has a content-type header beginning
with "image/"; for every other response it parses the body, read as text, as JSON and
returns the parsed value. -/
theorem sendMessage_adapter_disambiguates (P : Platform) (response : HttpResponse) :
    (chatService.sendMessage P (.ok response) =
        .ok (.record [("type", .str "image"), ("image", .blob response.data),
          ("headers", .record (response.headers.map (fun kv => (kv.1, JsVal.str kv.2))))]) ↔
      ∃ ct, response.headers.lookup "content-type" = some ct ∧
        startsWith ct "image/" = true) ∧
    ((∃ ct, response.headers.lookup "content-type" = some ct ∧
        startsWith ct "image/" = true) →
      ∃ result headers, chatService.sendMessage P (.ok response) = .ok result ∧
        result.get "type" = .ok (.str "image") ∧
        result.get "image" = .ok (.blob response.data) ∧
        result.get "headers" = .ok headers ∧
        ∀ name, headers.get name =
          .ok (match response.headers.lookup name with
               | some value => JsVal.str value
               | none => JsVal.undefined)) ∧
    ((¬ ∃ ct, response.headers.lookup "content-type" = some ct ∧
        startsWith ct "image/" = true) →
      ∀ text, P.readAsText response.data = .ok text →
        chatService.sendMessage P (.ok response) = (P.jsonParse text).map JsVal.json) := by
  have hshape : imageResult response =
      .record [("type", .str "image"), ("image", .blob response.data),
        ("headers", .record (response.headers.map (fun kv => (kv.1, JsVal.str kv.2))))] := rfl
  rw [← isImageContentType_iff, ← hshape]
  refine ⟨⟨?_, sendMessage_adapter_image P response⟩, ?_, ?_⟩
  · intro h
    by_contra hn
    have hn2 : isImageContentType (response.headers.lookup "content-type") = false := by
      simpa using hn
    simp only [chatService.sendMessage, hn2] at h
    cases hr : P.readAsText response.data with
    | error e => simp [hr] at h
    | ok text =>
        cases hp : P.jsonParse text with
        | error e => simp [hr, hp] at h
        | ok v => simp [hr, hp, imageResult] at h
  · intro himage
    exact ⟨imageResult response, response.headersObject,
      sendMessage_adapter_image P response himage, rfl, rfl, rfl,
      fun name => lookup_headersObject response name⟩
  · intro hn text hread
    exact sendMessage_adapter_other P response text (by simpa using hn) hread

theorem sendMessage_adapter_disambiguates_witness :
    chatService.sendMessage samplePlatform (.ok (sampleImageResponse "Here%20you%20go")) =
        .ok (.record [("type", .str "image"),
          ("image", .blob { type := "image/png", size := 4, content := "\x89PNG" }),
          ("headers", .record [("content-type", .str "image/png"),
            ("x-message", .str "Here%20you%20go")])]) ∧
    chatService.sendMessage samplePlatform (.ok sampleJsonResponse) =
        .ok (.json (.obj [("message", .str "hi")])) :=
  ⟨(sendMessage_adapter_disambiguates samplePlatform
      (sampleImageResponse "Here%20you%20go")).1.2 ⟨"image/png", rfl, rfl⟩,
    (sendMessage_adapter_disambiguates samplePlatform sampleJsonResponse).2.2
      (by rintro ⟨ct, hct, hs⟩
          have hct2 : ct = "application/json" := by
            simpa [sampleJsonResponse, List.lookup] using hct.symm
          subst hct2
          exact absurd hs (by decide))
      _ rfl⟩

/-- C5: when the content-type does not begin with "image/" and the body, read as text,
is not valid JSON, the adapter call fails with the parse error; no successful result
replaces it. -/
theorem sendMessage_adapter_propagates_parse_error (P : Platform) (response : HttpResponse)
    (text : String) (e : JsError)
    (hct : ¬ ∃ ct, response.headers.lookup "content-type" = some ct ∧
      startsWith ct "image/" = true)
    (hread : P.readAsText response.data = .ok text)
    (hparse : P.jsonParse text = .error e) :
    chatService.sendMessage P (.ok response) = .error e := by
  rw [← isImageContentType_iff] at hct
  rw [sendMessage_adapter_other P response text (by simpa using hct) hread, hparse]
  rfl

theorem sendMessage_adapter_propagates_parse_error_witness :
    chatService.sendMessage samplePlatform (.ok sampleHtmlResponse) = .error .syntaxError :=
  sendMessage_adapter_propagates_parse_error samplePlatform sampleHtmlResponse
    "<html></html>" .syntaxError
    (by rintro ⟨ct, hct, hs⟩
        have hct2 : ct = "text/html" := by
          simpa [sampleHtmlResponse, List.lookup] using hct.symm
        subst hct2
        exact absurd hs (by decide))
    rfl rfl

/-! ### Sends run to completion -/

theorem sendMessageRun_accepted (P : Platform) (env : SendEnv) (now : String)
    (http : Except JsError HttpResponse) (s : State)
    (htext : trim s.inputValue ≠ "") (hidle : s.isLoading = false) :
    sendMessageRun P env now http s =
      handleSendMessage.resolve P env
        (s.messages ++
          [{ role := .str "user", text := .str (trim s.inputValue), timestamp := now }])
        (chatService.sendMessage P http)
        { s with
          inputValue := ""
          messages := s.messages ++
            [{ role := .str "user", text := .str (trim s.inputValue), timestamp := now }]
          isLoading := true } := by
  simp [sendMessageRun, handleSendMessage_accepted now s htext hidle]

theorem tryBlock_rejected (P : Platform) (env : SendEnv) (newMessages : List Message)
    (e : JsError) :
    handleSendMessage.tryBlock P env newMessages (.error e) = .error e := rfl

theorem tryBlock_json_object (P : Platform) (env : SendEnv) (newMessages : List Message)
    (fields : List (String × Json)) (m : Json)
    (hmsg : fields.lookup "message" = some m)
    (htype : fields.lookup "type" ≠ some (.str "image")) :
    handleSendMessage.tryBlock P env newMessages (.ok (.json (.obj fields))) =
      .ok (newMessages ++
        [{ role := .str "assistant", text := .json m, timestamp := env.botTime }]) := by
  have hnot : ∀ v, (JsVal.json (.obj fields)).get "type" = .ok v → v.isStr "image" = false := by
    intro v hv
    simp only [JsVal.get] at hv
    cases ht : fields.lookup "type" with
    | none =>
        rw [ht] at hv
        cases hv
        rfl
    | some t =>
        rw [ht] at hv
        cases hv
        cases t with
        | str x =>
            have hx : x ≠ "image" := fun hx => htype (by rw [ht, hx])
            simp [JsVal.isStr, hx]
        | _ => rfl
  cases hg : (JsVal.json (.obj fields)).get "type" with
  | error e => simp [JsVal.get] at hg; cases h : fields.lookup "type" <;> simp [h] at hg
  | ok v =>
      have hv := hnot v hg
      simp only [handleSendMessage.tryBlock, bind, Except.bind, hg, hv]
      simp [JsVal.get, hmsg, pure, Except.pure]

theorem tryBlock_image (P : Platform) (env : SendEnv) (newMessages : List Message)
    (response : HttpResponse) (ct : String)
    (hct : response.headers.lookup "content-type" = some ct) :
    handleSendMessage.tryBlock P env newMessages (.ok (imageResult response)) =
      .ok (match response.headers.lookup "x-message" with
        | some h =>
            if h ≠ "" then
              newMessages ++
                [{ role := .str "assistant"
                   text := (match P.decodeURIComponent h with
                            | .ok decoded => JsVal.str decoded
                            | .error _ => JsVal.str h)
                   timestamp := env.captionTime },
                 { role := .str "assistant", image := .str env.url, downloadable := true,
                   timestamp := env.botTime }]
            else
              newMessages ++
                [{ role := .str "assistant", image := .str env.url, downloadable := true,
                   timestamp := env.botTime }]
        | none =>
            newMessages ++
              [{ role := .str "assistant", image := .str env.url, downloadable := true,
                 timestamp := env.botTime }]) := by
  have h1 : (imageResult response).get "type" = .ok (.str "image") := rfl
  have h2 : (imageResult response).get "image" = .ok (.blob response.data) := rfl
  have h3 : (imageResult response).get "headers" = .ok response.headersObject := rfl
  have h4 := lookup_headersObject response "content-type"
  have h5 := lookup_headersObject response "x-message"
  rw [hct] at h4
  have h6 : newBlob P (.blob response.data) (JsVal.str ct) = .ok () := rfl
  have h7 : (JsVal.str "image").isStr "image" = true := by decide
  simp only [handleSendMessage.tryBlock, bind, Except.bind, h1, h2, h3, h4, h5, h6, h7]
  cases hx : response.headers.lookup "x-message" with
  | none => simp [JsVal.truthy, pure, Except.pure]
  | some h =>
      by_cases hh : h = ""
      · simp [JsVal.truthy, JsVal.str, pure, Except.pure, hh]
      · simp only [JsVal.truthy, JsVal.str, pure, Except.pure, hh, decodeURIComponent,
          JsVal.toStr]
        cases P.decodeURIComponent h <;> simp [hh]

theorem not_image_of_no_image_header (response : HttpResponse)
    (hct : ¬ ∃ ct, response.headers.lookup "content-type" = some ct ∧
      startsWith ct "image/" = true) :
    isImageContentType (response.headers.lookup "content-type") = false := by
  rw [← isImageContentType_iff] at hct
  simpa using hct

/-- C2 (amended): for every accepted send whose response has a content-type not beginning
with "image/" and whose body parses as a JSON object carrying a message field `m` and no
`type` field equal to the string "image", the Timeline after completion is the Timeline
at the call, then the user Message with the sent text, then exactly one assistant Message
whose text is `m` and which has no image. -/
theorem json_reply_appends_user_then_assistant (P : Platform) (env : SendEnv) (now : String)
    (s : State) (response : HttpResponse) (text : String) (fields : List (String × Json))
    (m : Json)
    (htext : trim s.inputValue ≠ "") (hidle : s.isLoading = false)
    (hct : ¬ ∃ ct, response.headers.lookup "content-type" = some ct ∧
      startsWith ct "image/" = true)
    (hread : P.readAsText response.data = .ok text)
    (hparse : P.jsonParse text = .ok (.obj fields))
    (hmsg : fields.lookup "message" = some m)
    (htype : fields.lookup "type" ≠ some (.str "image")) :
    (sendMessageRun P env now (.ok response) s).messages =
      s.messages ++
        [{ role := .str "user", text := .str (trim s.inputValue), timestamp := now },
         { role := .str "assistant", text := .json m, image := .undefined,
           timestamp := env.botTime }] := by
  rw [sendMessageRun_accepted P env now _ s htext hidle,
    sendMessage_adapter_other P response text (not_image_of_no_image_header response hct) hread,
    hparse]
  simp only [Except.map, handleSendMessage.resolve,
    tryBlock_json_object P env _ fields m hmsg htype]
  simp

theorem json_reply_appends_user_then_assistant_witness :
    (sendMessageRun samplePlatform sampleEnv "10:00:01 AM" (.ok sampleJsonResponse)
        (sampleState "hello")).messages =
      (sampleState "hello").messages ++
        [{ role := .str "user", text := .str "hello", timestamp := "10:00:01 AM" },
         { role := .str "assistant", text := .str "hi", timestamp := "10:00:02 AM" }] :=
  json_reply_appends_user_then_assistant samplePlatform sampleEnv "10:00:01 AM"
    (sampleState "hello") sampleJsonResponse "\x7b\"message\":\"hi\"\x7d"
    [("message", .str "hi")] (.str "hi") (by decide) rfl
    (by rintro ⟨ct, hct, hs⟩
        have hct2 : ct = "application/json" := by
          simpa [sampleJsonResponse, List.lookup] using hct.symm
        subst hct2
        exact absurd hs (by decide))
    rfl rfl rfl (by simp [List.lookup])

/-- C2, as stated, fails: the body `\x7b"type":"image","message":"hi"\x7d` arrives with
content-type application/json and parses as an object carrying the message field "hi",
yet the controller takes it for an image reply, reads `headers` of an object that has
none, and ends with the synthetic error Message instead of the assistant Message "hi". -/
theorem json_reply_tagged_image_counterexample :
    trim (sampleState "hello").inputValue ≠ "" ∧
    (sampleState "hello").isLoading = false ∧
    (¬ ∃ ct, sampleTaggedJsonResponse.headers.lookup "content-type" = some ct ∧
      startsWith ct "image/" = true) ∧
    (∃ text fields, samplePlatform.readAsText sampleTaggedJsonResponse.data = .ok text ∧
      samplePlatform.jsonParse text = .ok (.obj fields) ∧
      fields.lookup "message" = some (.str "hi")) ∧
    (sendMessageRun samplePlatform sampleEnv "10:00:01 AM" (.ok sampleTaggedJsonResponse)
        (sampleState "hello")).messages =
      (sampleState "hello").messages ++
        [{ role := .str "user", text := .str "hello", timestamp := "10:00:01 AM" },
         sendErrorMessage "10:00:04 AM"] ∧
    (sendMessageRun samplePlatform sampleEnv "10:00:01 AM" (.ok sampleTaggedJsonResponse)
        (sampleState "hello")).messages ≠
      (sampleState "hello").messages ++
        [{ role := .str "user", text := .str "hello", timestamp := "10:00:01 AM" },
         { role := .str "assistant", text := .str "hi", timestamp := "10:00:02 AM" }] := by
  have hrun : (sendMessageRun samplePlatform sampleEnv "10:00:01 AM"
      (.ok sampleTaggedJsonResponse) (sampleState "hello")).messages =
      (sampleState "hello").messages ++
        [{ role := .str "user", text := .str "hello", timestamp := "10:00:01 AM" },
         sendErrorMessage "10:00:04 AM"] := rfl
  refine ⟨by decide, rfl, ?_, ⟨_, _, rfl, rfl, rfl⟩, hrun, ?_⟩
  · rintro ⟨ct, hct, hs⟩
    have hct2 : ct = "application/json" := by
      simpa [sampleTaggedJsonResponse, List.lookup] using hct.symm
    subst hct2
    exact absurd hs (by decide)
  · rw [hrun]
    intro h
    have h2 := congrArg (fun l => (l.map (fun m => m.text))) h
    simp [sendErrorMessage, sampleState, JsVal.str] at h2

theorem sendMessageRun_image (P : Platform) (env : SendEnv) (now : String) (s : State)
    (response : HttpResponse) (ct h : String)
    (htext : trim s.inputValue ≠ "") (hidle : s.isLoading = false)
    (hct : response.headers.lookup "content-type" = some ct)
    (himg : startsWith ct "image/" = true)
    (hx : response.headers.lookup "x-message" = some h) (hne : h ≠ "") :
    (sendMessageRun P env now (.ok response) s).messages =
      s.messages ++
        [{ role := .str "user", text := .str (trim s.inputValue), timestamp := now },
         { role := .str "assistant"
           text := (match P.decodeURIComponent h with
                    | .ok decoded => JsVal.str decoded
                    | .error _ => JsVal.str h)
           timestamp := env.captionTime },
         { role := .str "assistant", image := .str env.url, downloadable := true,
           timestamp := env.botTime }] := by
  have hi : isImageContentType (response.headers.lookup "content-type") = true :=
    (isImageContentType_iff _).2 ⟨ct, hct, himg⟩
  rw [sendMessageRun_accepted P env now _ s htext hidle,
    sendMessage_adapter_image P response hi]
  simp only [handleSendMessage.resolve, tryBlock_image P env _ response ct hct, hx]
  simp [hne]

/-- C3: for every accepted send whose response has a content-type beginning with "image/"
and a non-empty x-message header that percent-decodes to the caption `c`, the Timeline
after completion is the Timeline at the call followed by exactly three Messages: the user
Message with the sent text, an assistant Message whose text is `c`, and an assistant
Message with image set and downloadable = true. -/
theorem image_reply_appends_caption_then_image (P : Platform) (env : SendEnv) (now : String)
    (s : State) (response : HttpResponse) (ct h c : String)
    (htext : trim s.inputValue ≠ "") (hidle : s.isLoading = false)
    (hct : response.headers.lookup "content-type" = some ct)
    (himg : startsWith ct "image/" = true)
    (hx : response.headers.lookup "x-message" = some h) (hne : h ≠ "")
    (hdecode : P.decodeURIComponent h = .ok c) :
    (sendMessageRun P env now (.ok response) s).messages =
      s.messages ++
        [{ role := .str "user", text := .str (trim s.inputValue), timestamp := now },
         { role := .str "assistant", text := .str c, timestamp := env.captionTime },
         { role := .str "assistant", image := .str env.url, downloadable := true,
           timestamp := env.botTime }] := by
  rw [sendMessageRun_image P env now s response ct h htext hidle hct himg hx hne, hdecode]

theorem image_reply_appends_caption_then_image_witness :
    (sendMessageRun samplePlatform sampleEnv "10:00:01 AM"
        (.ok (sampleImageResponse "Here%20you%20go")) (sampleState "draw a cat")).messages =
      (sampleState "draw a cat").messages ++
        [{ role := .str "user", text := .str "draw a cat", timestamp := "10:00:01 AM" },
         { role := .str "assistant", text := .str "Here you go", timestamp := "10:00:03 AM" },
         { role := .str "assistant", image := .str "blob:http://localhost/0001",
           downloadable := true, timestamp := "10:00:02 AM" }] :=
  image_reply_appends_caption_then_image samplePlatform sampleEnv "10:00:01 AM"
    (sampleState "draw a cat") (sampleImageResponse "Here%20you%20go") "image/png"
    "Here%20you%20go" "Here you go" (by decide) rfl rfl rfl rfl (by decide) rfl

/-- C6: for every image reply whose x-message header is non-empty but is not a well-formed
percent-encoding, the send does not fail: the Timeline gains, after the user Message, an
assistant Message whose text is the raw header value, then the assistant image Message
with downloadable = true; no synthetic error Message is appended and the busy flag is
cleared. -/
theorem malformed_caption_falls_back_to_raw (P : Platform) (env : SendEnv) (now : String)
    (s : State) (response : HttpResponse) (ct h : String) (e : JsError)
    (htext : trim s.inputValue ≠ "") (hidle : s.isLoading = false)
    (hct : response.headers.lookup "content-type" = some ct)
    (himg : startsWith ct "image/" = true)
    (hx : response.headers.lookup "x-message" = some h) (hne : h ≠ "")
    (hdecode : P.decodeURIComponent h = .error e) :
    (sendMessageRun P env now (.ok response) s).messages =
      s.messages ++
        [{ role := .str "user", text := .str (trim s.inputValue), timestamp := now },
         { role := .str "assistant", text := .str h, timestamp := env.captionTime },
         { role := .str "assistant", image := .str env.url, downloadable := true,
           timestamp := env.botTime }] ∧
    (sendMessageRun P env now (.ok response) s).isLoading = false := by
  constructor
  · rw [sendMessageRun_image P env now s response ct h htext hidle hct himg hx hne, hdecode]
  · rw [sendMessageRun_accepted P env now _ s htext hidle]
    simp only [handleSendMessage.resolve]
    split <;> rfl

theorem malformed_caption_falls_back_to_raw_witness :
    (sendMessageRun samplePlatform sampleEnv "10:00:01 AM"
        (.ok (sampleImageResponse "100%")) (sampleState "draw a cat")).messages =
      (sampleState "draw a cat").messages ++
        [{ role := .str "user", text := .str "draw a cat", timestamp := "10:00:01 AM" },
         { role := .str "assistant", text := .str "100%", timestamp := "10:00:03 AM" },
         { role := .str "assistant", image := .str "blob:http://localhost/0001",
           downloadable := true, timestamp := "10:00:02 AM" }] ∧
    (sendMessageRun samplePlatform sampleEnv "10:00:01 AM"
        (.ok (sampleImageResponse "100%")) (sampleState "draw a cat")).isLoading = false :=
  malformed_caption_falls_back_to_raw samplePlatform sampleEnv "10:00:01 AM"
    (sampleState "draw a cat") (sampleImageResponse "100%") "image/png" "100%" .uriError
    (by decide) rfl rfl rfl rfl (by decide) rfl

/-- C7: for every accepted send whose backend call fails (the request is rejected, or the
body of a reply that is not an image cannot be read or parsed), the Timeline after
completion is the Timeline at the call, then the optimistic user Message, then exactly
one synthetic assistant error Message; the user Message is kept. -/
theorem failed_send_appends_error_message (P : Platform) (env : SendEnv) (now : String)
    (s : State) (http : Except JsError HttpResponse) (e : JsError)
    (htext : trim s.inputValue ≠ "") (hidle : s.isLoading = false)
    (hfail : chatService.sendMessage P http = .error e) :
    (sendMessageRun P env now http s).messages =
      s.messages ++
        [{ role := .str "user", text := .str (trim s.inputValue), timestamp := now },
         { role := .str "assistant",
           text := .str "❌ Sorry, I encountered an error. Please try again.",
           timestamp := env.errorTime }] := by
  rw [sendMessageRun_accepted P env now _ s htext hidle, hfail]
  simp [handleSendMessage.resolve, tryBlock_rejected, sendErrorMessage]

theorem failed_send_appends_error_message_witness :
    (sendMessageRun samplePlatform sampleEnv "10:00:01 AM" (.ok sampleHtmlResponse)
        (sampleState "hello")).messages =
      (sampleState "hello").messages ++
        [{ role := .str "user", text := .str "hello", timestamp := "10:00:01 AM" },
         { role := .str "assistant",
           text := .str "❌ Sorry, I encountered an error. Please try again.",
           timestamp := "10:00:04 AM" }] :=
  failed_send_appends_error_message samplePlatform sampleEnv "10:00:01 AM"
    (sampleState "hello") (.ok sampleHtmlResponse) .syntaxError (by decide) rfl rfl

/-! ### Deleting and loading sessions -/

theorem deleteSessionRun_declined (outcome : Except JsError Unit) (session : HistoryEntry)
    (s : State) : deleteSessionRun false outcome session s = (s, []) := rfl

theorem deleteSessionRun_confirmed (outcome : Except JsError Unit) (session : HistoryEntry)
    (s : State) :
    deleteSessionRun true outcome session s =
      handleDeleteSession.resolve session s.sessionId s.user outcome s := rfl

/-- C8: after `deleteSession(s)`, History is the previous History without the entries
whose id equals `s.id`, the other entries kept in their previous order, when the user
confirmed and the backend deletion resolved; when the user declined or the backend call
failed, History is unchanged. -/
theorem deleteSession_history (confirmed : Bool) (outcome : Except JsError Unit)
    (session : HistoryEntry) (s : State) :
    ((confirmed = true ∧ outcome = .ok ()) →
      (deleteSessionRun confirmed outcome session s).1.history =
          s.history.filter (fun entry => decide (entry.id ≠ session.id)) ∧
        (∀ entry, entry ∈ (deleteSessionRun confirmed outcome session s).1.history ↔
          entry ∈ s.history ∧ entry.id ≠ session.id) ∧
        List.Sublist (deleteSessionRun confirmed outcome session s).1.history s.history) ∧
    (¬ (confirmed = true ∧ outcome = .ok ()) →
      (deleteSessionRun confirmed outcome session s).1.history = s.history) := by
  constructor
  · rintro ⟨hc, ho⟩
    subst hc ho
    have hrun : (deleteSessionRun true (.ok ()) session s).1.history =
        s.history.filter (fun entry => decide (entry.id ≠ session.id)) := by
      rw [deleteSessionRun_confirmed]
      simp only [handleDeleteSession.resolve]
      split <;> rfl
    rw [hrun]
    refine ⟨rfl, ?_, List.filter_sublist _⟩
    intro entry
    simp [List.mem_filter]
  · intro h
    cases confirmed with
    | false => rfl
    | true =>
        cases outcome with
        | error e => rfl
        | ok u => exact absurd ⟨rfl, rfl⟩ h

theorem deleteSession_history_witness :
    ((deleteSessionRun true (.ok ()) (sampleEntry "s2" "B") sampleStateWithHistory).1.history =
        sampleStateWithHistory.history.filter
          (fun entry => decide (entry.id ≠ (sampleEntry "s2" "B").id)) ∧
      (∀ entry,
        entry ∈ (deleteSessionRun true (.ok ()) (sampleEntry "s2" "B")
            sampleStateWithHistory).1.history ↔
          entry ∈ sampleStateWithHistory.history ∧ entry.id ≠ (sampleEntry "s2" "B").id) ∧
      List.Sublist
        (deleteSessionRun true (.ok ()) (sampleEntry "s2" "B") sampleStateWithHistory).1.history
        sampleStateWithHistory.history) ∧
    (deleteSessionRun true (.error .backendError) (sampleEntry "s2" "B")
        sampleStateWithHistory).1.history = sampleStateWithHistory.history :=
  ⟨(deleteSession_history true (.ok ()) (sampleEntry "s2" "B") sampleStateWithHistory).1
      ⟨rfl, rfl⟩,
    (deleteSession_history true (.error .backendError) (sampleEntry "s2" "B")
      sampleStateWithHistory).2 (fun h => by cases h.2)⟩

/-- C9: for every confirmed `deleteSession(s)` whose backend deletion succeeded,
`startNewChat` is triggered if and only if `s.id` equals the active session id; when `s`
is not the active session no backend call is issued and ActiveSession and Timeline are
unchanged. -/
theorem deleteSession_starts_new_chat_iff_active (session : HistoryEntry) (s : State) :
    ((deleteSessionRun true (.ok ()) session s =
        startNewChat s.user
          { s with history := s.history.filter (fun entry => decide (entry.id ≠ session.id)) }) ↔
      s.sessionId = some session.id) ∧
    ((∃ userId, Pending.startChat userId ∈ (deleteSessionRun true (.ok ()) session s).2) ↔
      s.sessionId = some session.id) ∧
    (s.sessionId ≠ some session.id →
      (deleteSessionRun true (.ok ()) session s).2 = [] ∧
      (deleteSessionRun true (.ok ()) session s).1.sessionId = s.sessionId ∧
      (deleteSessionRun true (.ok ()) session s).1.messages = s.messages) := by
  rw [deleteSessionRun_confirmed]
  by_cases h : s.sessionId = some session.id
  · simp [handleDeleteSession.resolve, h, startNewChat]
  · simp only [handleDeleteSession.resolve, h, if_false, iff_false, ne_eq, not_false_eq_true,
      true_implies, and_self, and_true, List.not_mem_nil, exists_false]
    intro hEq
    have := congrArg Prod.snd hEq
    simp [startNewChat] at this

theorem deleteSession_starts_new_chat_iff_active_witness :
    deleteSessionRun true (.ok ()) (sampleEntry "s1" "A") sampleStateWithHistory =
        startNewChat sampleStateWithHistory.user
          { sampleStateWithHistory with
            history := sampleStateWithHistory.history.filter
              (fun entry => decide (entry.id ≠ (sampleEntry "s1" "A").id)) } ∧
    ((deleteSessionRun true (.ok ()) (sampleEntry "s2" "B") sampleStateWithHistory).2 = [] ∧
      (deleteSessionRun true (.ok ()) (sampleEntry "s2" "B") sampleStateWithHistory).1.sessionId =
        sampleStateWithHistory.sessionId ∧
      (deleteSessionRun true (.ok ()) (sampleEntry "s2" "B") sampleStateWithHistory).1.messages =
        sampleStateWithHistory.messages) :=
  ⟨(deleteSession_starts_new_chat_iff_active (sampleEntry "s1" "A")
      sampleStateWithHistory).1.2 rfl,
    (deleteSession_starts_new_chat_iff_active (sampleEntry "s2" "B")
      sampleStateWithHistory).2.2 (by decide)⟩

/-- C10: when the backend returns the message list `msgs` of session `s`, then after
`loadSession(s)` ActiveSession is `s.id` and the Timeline is the image of `msgs`, in the
same order and of the same length, under the mapping that keeps the role, takes the
content as text, and takes the image path as image when it is truthy and no image
(`null`) otherwise; nothing of the prior Timeline is retained. -/
theorem loadSession_replaces_timeline (P : Platform) (msgs : List StoredMessage)
    (session : HistoryEntry) (s : State) :
    (loadSessionRun P (.ok msgs) session s).sessionId = some session.id ∧
    (loadSessionRun P (.ok msgs) session s).messages = msgs.map (toUiMessage P) ∧
    (loadSessionRun P (.ok msgs) session s).messages.length = msgs.length ∧
    (∀ (i : Nat) (m : StoredMessage), msgs[i]? = some m →
      ∃ shown, (loadSessionRun P (.ok msgs) session s).messages[i]? = some shown ∧
        shown.role = m.role ∧ shown.text = m.content ∧
        shown.image = (if m.image_path.truthy then m.image_path else .null) ∧
        shown.downloadable = false ∧ shown.classification = .undefined ∧
        shown.timestamp = P.toLocaleTimeString m.timestamp) := by
  have hrun : loadSessionRun P (.ok msgs) session s =
      { s with
        isLoading := false, sessionId := some session.id, isSidebarOpen := false,
        messages := msgs.map (toUiMessage P) } := rfl
  rw [hrun]
  refine ⟨rfl, rfl, by simp, ?_⟩
  intro i m hm
  refine ⟨toUiMessage P m, ?_, rfl, rfl, rfl, rfl, rfl, rfl⟩
  simp [List.getElem?_map, hm]

theorem loadSession_replaces_timeline_witness :
    (loadSessionRun samplePlatform (.ok sampleStoredMessages) (sampleEntry "s2" "B")
        sampleStateWithHistory).sessionId = some { key := "s2" } ∧
    ∃ shown, (loadSessionRun samplePlatform (.ok sampleStoredMessages) (sampleEntry "s2" "B")
        sampleStateWithHistory).messages[1]? = some shown ∧
      shown.text = .str "Here you go" ∧ shown.image = .str "/static/cat.png" :=
  have h := loadSession_replaces_timeline samplePlatform sampleStoredMessages
    (sampleEntry "s2" "B") sampleStateWithHistory
  ⟨h.1, by
    obtain ⟨shown, hs, _, ht, hi, _⟩ := h.2.2.2 1 _ rfl
    exact ⟨shown, hs, ht, hi⟩⟩

/-- C11: if the backend fetch of `loadSession(s)` fails, then after completion
ActiveSession is `s.id` (it is not reverted), the Timeline is exactly the Timeline shown
before the call, and History is unchanged. -/
theorem failed_loadSession_keeps_timeline (P : Platform) (e : JsError)
    (session : HistoryEntry) (s : State) :
    (loadSessionRun P (.error e) session s).sessionId = some session.id ∧
    (loadSessionRun P (.error e) session s).messages = s.messages ∧
    (loadSessionRun P (.error e) session s).history = s.history :=
  ⟨rfl, rfl, rfl⟩

/-! ### Starting a chat -/

/-- C12: if the backend call of `startNewChat` succeeds with `(session_id, message)`,
then after completion ActiveSession is the returned `session_id` and the Timeline is
exactly one Message, of role assistant, whose text is the returned message. -/
theorem startNewChat_success (now : String) (data : StartReply) (user : Option User)
    (s : State) :
    (startNewChatRun now (.ok data) user s).sessionId = some data.session_id ∧
    (startNewChatRun now (.ok data) user s).messages =
      [{ role := .str "assistant", text := data.message, timestamp := now }] :=
  ⟨rfl, rfl⟩

/-- C13 (amended): if the backend call of `startNewChat` fails, then after completion
ActiveSession has the value it had before the call (so it is unset when it was unset), and
the Timeline is exactly one synthetic assistant error Message. -/
theorem startNewChat_failure (now : String) (e : JsError) (user : Option User) (s : State) :
    (startNewChatRun now (.error e) user s).sessionId = s.sessionId ∧
    (s.sessionId = none → (startNewChatRun now (.error e) user s).sessionId = none) ∧
    (startNewChatRun now (.error e) user s).messages =
      [{ role := .str "assistant",
         text := .str "❌ Failed to connect to server. Please ensure the backend is running.",
         timestamp := now }] :=
  ⟨rfl, fun h => h, rfl⟩

theorem startNewChat_failure_witness :
    (startNewChatRun "10:00:00 AM" (.error .networkFailure) none State.initial).sessionId =
      none :=
  (startNewChat_failure "10:00:00 AM" .networkFailure none State.initial).2.1 rfl

/-- C13, as stated, fails: with session `s1` active, a `startNewChat` whose backend call
fails ends with ActiveSession still `s1`, not unset, under the single error Message. -/
theorem startNewChat_failure_keeps_session_counterexample :
    (sampleState "").sessionId = some { key := "s1" } ∧
    (startNewChatRun "10:00:00 AM" (.error .networkFailure) (sampleState "").user
        (sampleState "")).sessionId = some { key := "s1" } ∧
    (startNewChatRun "10:00:00 AM" (.error .networkFailure) (sampleState "").user
        (sampleState "")).sessionId ≠ none ∧
    (startNewChatRun "10:00:00 AM" (.error .networkFailure) (sampleState "").user
        (sampleState "")).messages = [startErrorMessage "10:00:00 AM"] :=
  ⟨rfl, rfl, by decide, rfl⟩

/-! ### Uploading an image -/

theorem handleFileUpload_accepted (now url : String) (file : File) (s : State)
    (sessionId : SessionId) (hsession : s.sessionId = some sessionId)
    (hidle : s.isLoading = false) :
    handleFileUpload now url file s =
      ({ s with
          currentImage := some url
          messages := s.messages ++
            [{ role := .str "user", image := .str url, timestamp := now }]
          isLoading := true },
        [.uploadImage sessionId file]) := by
  simp [handleFileUpload, hsession, hidle]

theorem handleFileUpload_rejected (now url : String) (file : File) (s : State)
    (h : ¬ (s.sessionId ≠ none ∧ s.isLoading = false)) :
    handleFileUpload now url file s = (s, []) := by
  unfold handleFileUpload
  cases hs : s.sessionId with
  | none => rfl
  | some sessionId =>
      cases hl : s.isLoading with
      | true => rfl
      | false => exact absurd ⟨by simp [hs], hl⟩ h

theorem uploadImageRun_accepted (now url replyTime : String)
    (outcome : Except JsError UploadReply) (file : File) (s : State)
    (sessionId : SessionId) (hsession : s.sessionId = some sessionId)
    (hidle : s.isLoading = false) :
    uploadImageRun now url replyTime outcome file s =
      handleFileUpload.resolve replyTime outcome
        { s with
          currentImage := some url
          messages := s.messages ++
            [{ role := .str "user", image := .str url, timestamp := now }]
          isLoading := true } := by
  simp [uploadImageRun, handleFileUpload_accepted now url file s sessionId hsession hidle]

/-- C17: `uploadImage` appends exactly one optimistic user Message carrying the local
preview reference as image and no text, and sets the busy flag, if and only if an active
session exists and the busy flag is clear (it then issues exactly one backend call, for
that session); in every other case Timeline, display-hint, session id and busy flag are
unchanged and no backend call is issued. -/
theorem uploadImage_appends_iff_accepted (now url : String) (file : File) (s : State) :
    (((handleFileUpload now url file s).1.messages = s.messages ++
          [{ role := .str "user", text := .undefined, image := .str url, timestamp := now }] ∧
        (handleFileUpload now url file s).1.isLoading = true) ↔
      (s.sessionId ≠ none ∧ s.isLoading = false)) ∧
    (∀ sessionId, s.sessionId = some sessionId → s.isLoading = false →
      (handleFileUpload now url file s).2 = [.uploadImage sessionId file]) ∧
    (¬ (s.sessionId ≠ none ∧ s.isLoading = false) →
      (handleFileUpload now url file s).1.messages = s.messages ∧
      (handleFileUpload now url file s).1.currentImage = s.currentImage ∧
      (handleFileUpload now url file s).1.sessionId = s.sessionId ∧
      (handleFileUpload now url file s).1.isLoading = s.isLoading ∧
      (handleFileUpload now url file s).2 = []) := by
  refine ⟨⟨?_, ?_⟩, ?_, ?_⟩
  · intro h
    by_contra hn
    rw [handleFileUpload_rejected now url file s hn] at h
    have hlen := congrArg List.length h.1
    simp at hlen
  · rintro ⟨hs, hl⟩
    obtain ⟨sessionId, hsid⟩ := Option.ne_none_iff_exists'.mp hs
    rw [handleFileUpload_accepted now url file s sessionId hsid hl]
    exact ⟨rfl, rfl⟩
  · intro sessionId hsid hl
    rw [handleFileUpload_accepted now url file s sessionId hsid hl]
  · intro h
    rw [handleFileUpload_rejected now url file s h]
    exact ⟨rfl, rfl, rfl, rfl, rfl⟩

theorem uploadImage_appends_iff_accepted_witness :
    (handleFileUpload "10:00:00 AM" "blob:http://localhost/0002" sampleFile
        (sampleState "")).2 = [.uploadImage { key := "s1" } sampleFile] ∧
    (handleFileUpload "10:00:00 AM" "blob:http://localhost/0002" sampleFile
        State.initial).2 = [] :=
  ⟨(uploadImage_appends_iff_accepted "10:00:00 AM" "blob:http://localhost/0002" sampleFile
      (sampleState "")).2.1 { key := "s1" } rfl rfl,
    ((uploadImage_appends_iff_accepted "10:00:00 AM" "blob:http://localhost/0002" sampleFile
      State.initial).2.2 (fun h => h.1 rfl)).2.2.2.2⟩

/-- C18: for every accepted `uploadImage` whose backend call succeeds with
`(message, probabilities)`, the Timeline after completion is the Timeline at the call,
then the user image Message, then exactly one assistant Message whose text is the
returned message and whose classification is the returned probabilities; and the
current-image display-hint is the preview reference of the uploaded file. -/
theorem upload_success_appends_classification (now url replyTime : String)
    (response : UploadReply) (file : File) (s : State) (sessionId : SessionId)
    (hsession : s.sessionId = some sessionId) (hidle : s.isLoading = false) :
    (uploadImageRun now url replyTime (.ok response) file s).messages =
      s.messages ++
        [{ role := .str "user", image := .str url, timestamp := now },
         { role := .str "assistant", text := response.message,
           classification := response.probabilities, timestamp := replyTime }] ∧
    (uploadImageRun now url replyTime (.ok response) file s).currentImage = some url := by
  rw [uploadImageRun_accepted now url replyTime _ file s sessionId hsession hidle]
  simp [handleFileUpload.resolve]

theorem upload_success_appends_classification_witness :
    (uploadImageRun "10:00:00 AM" "blob:http://localhost/0002" "10:00:05 AM"
        (.ok sampleUploadReply) sampleFile (sampleState "")).messages =
      (sampleState "").messages ++
        [{ role := .str "user", image := .str "blob:http://localhost/0002",
           timestamp := "10:00:00 AM" },
         { role := .str "assistant", text := .str "This looks like a cat.",
           classification := .json (.obj [("is_cat", .num 1)]), timestamp := "10:00:05 AM" }] ∧
    (uploadImageRun "10:00:00 AM" "blob:http://localhost/0002" "10:00:05 AM"
        (.ok sampleUploadReply) sampleFile (sampleState "")).currentImage =
      some "blob:http://localhost/0002" :=
  upload_success_appends_classification "10:00:00 AM" "blob:http://localhost/0002"
    "10:00:05 AM" sampleUploadReply sampleFile (sampleState "") { key := "s1" } rfl rfl

/-- C19: for every accepted `uploadImage` whose backend call fails, the Timeline after
completion is the Timeline at the call, then the user image Message, then exactly one
synthetic assistant error Message; and the current-image display-hint is cleared. -/
theorem upload_failure_appends_error_message (now url replyTime : String) (e : JsError)
    (file : File) (s : State) (sessionId : SessionId)
    (hsession : s.sessionId = some sessionId) (hidle : s.isLoading = false) :
    (uploadImageRun now url replyTime (.error e) file s).messages =
      s.messages ++
        [{ role := .str "user", image := .str url, timestamp := now },
         { role := .str "assistant",
           text := .str "❌ Failed to upload image. Please try again.",
           timestamp := replyTime }] ∧
    (uploadImageRun now url replyTime (.error e) file s).currentImage = none := by
  rw [uploadImageRun_accepted now url replyTime _ file s sessionId hsession hidle]
  simp [handleFileUpload.resolve, uploadErrorMessage]

theorem upload_failure_appends_error_message_witness :
    (uploadImageRun "10:00:00 AM" "blob:http://localhost/0002" "10:00:05 AM"
        (.error .backendError) sampleFile (sampleState "")).messages =
      (sampleState "").messages ++
        [{ role := .str "user", image := .str "blob:http://localhost/0002",
           timestamp := "10:00:00 AM" },
         { role := .str "assistant",
           text := .str "❌ Failed to upload image. Please try again.",
           timestamp := "10:00:05 AM" }] ∧
    (uploadImageRun "10:00:00 AM" "blob:http://localhost/0002" "10:00:05 AM"
        (.error .backendError) sampleFile (sampleState "")).currentImage = none :=
  upload_failure_appends_error_message "10:00:00 AM" "blob:http://localhost/0002"
    "10:00:05 AM" .backendError sampleFile (sampleState "") { key := "s1" } rfl rfl

/-! ### The busy flag at completion -/

theorem handleSendMessage_resolve_idle (P : Platform) (env : SendEnv)
    (newMessages : List Message) (outcome : Except JsError JsVal) (s : State) :
    (handleSendMessage.resolve P env newMessages outcome s).isLoading = false := by
  simp only [handleSendMessage.resolve]
  split <;> rfl

/-- C16: for each of `startNewChat`, `loadSession`, `sendMessage` and `uploadImage`, and
for every backend outcome, the continuation leaves the busy flag clear whatever state it
finds, so an accepted operation that has completed is back at Idle. -/
theorem completed_operation_is_idle (P : Platform) (s : State) :
    (∀ now outcome, (startNewChat.resolve now outcome s).isLoading = false) ∧
    (∀ outcome, (handleLoadSession.resolve P outcome s).isLoading = false) ∧
    (∀ env newMessages outcome,
      (handleSendMessage.resolve P env newMessages outcome s).isLoading = false) ∧
    (∀ now outcome, (handleFileUpload.resolve now outcome s).isLoading = false) ∧
    (∀ now outcome user, (startNewChatRun now outcome user s).isLoading = false) ∧
    (∀ outcome session, (loadSessionRun P outcome session s).isLoading = false) ∧
    (∀ env now http, trim s.inputValue ≠ "" → s.isLoading = false →
      (sendMessageRun P env now http s).isLoading = false) ∧
    (∀ now url replyTime outcome file sessionId, s.sessionId = some sessionId →
      s.isLoading = false →
      (uploadImageRun now url replyTime outcome file s).isLoading = false) := by
  refine ⟨?_, ?_, ?_, ?_, ?_, ?_, ?_, ?_⟩
  · intro now outcome
    cases outcome <;> rfl
  · intro outcome
    cases outcome <;> rfl
  · intro env newMessages outcome
    exact handleSendMessage_resolve_idle P env newMessages outcome s
  · intro now outcome
    cases outcome <;> rfl
  · intro now outcome user
    cases outcome <;> rfl
  · intro outcome session
    cases outcome <;> rfl
  · intro env now http htext hidle
    rw [sendMessageRun_accepted P env now http s htext hidle]
    exact handleSendMessage_resolve_idle P env _ _ _
  · intro now url replyTime outcome file sessionId hsession hidle
    rw [uploadImageRun_accepted now url replyTime outcome file s sessionId hsession hidle]
    cases outcome <;> rfl

theorem completed_operation_is_idle_witness :
    (sendMessageRun samplePlatform sampleEnv "10:00:01 AM" (.error .networkFailure)
        (sampleState "hello")).isLoading = false ∧
    (uploadImageRun "10:00:00 AM" "blob:http://localhost/0002" "10:00:05 AM"
        (.ok sampleUploadReply) sampleFile (sampleState "")).isLoading = false :=
  ⟨(completed_operation_is_idle samplePlatform (sampleState "hello")).2.2.2.2.2.2.1
      sampleEnv "10:00:01 AM" (.error .networkFailure) (by decide) rfl,
    (completed_operation_is_idle samplePlatform (sampleState "")).2.2.2.2.2.2.2
      "10:00:00 AM" "blob:http://localhost/0002" "10:00:05 AM" (.ok sampleUploadReply)
      sampleFile { key := "s1" } rfl rfl⟩

/-! ### Identity load -/

/-- C20: on identity load with no active session and a successful history fetch, a
non-empty history makes the controller call `loadSession` for its first element and not
`startNewChat`; an empty history makes it call `startNewChat` and not `loadSession`. -/
theorem identity_load_picks_first_or_starts (P : Platform) (userData : User) (s : State)
    (hnone : s.sessionId = none) :
    (∀ first rest,
      identityLoadRun P userData (.ok (first :: rest)) s =
          handleLoadSession (toHistoryEntry P first)
            { s with
              user := some userData
              history := (first :: rest).map (toHistoryEntry P) } ∧
        (identityLoadRun P userData (.ok (first :: rest)) s).2 = [.loadSession first.id]) ∧
    (identityLoadRun P userData (.ok []) s =
        startNewChat (some userData) { s with user := some userData, history := [] } ∧
      (identityLoadRun P userData (.ok []) s).2 = [.startChat (some userData.id)]) := by
  constructor
  · intro first rest
    simp [identityLoadRun, handleLogin, refreshHistory, refreshHistory.resolve, hnone,
      handleLoadSession, toHistoryEntry]
  · simp [identityLoadRun, handleLogin, refreshHistory, refreshHistory.resolve, hnone,
      startNewChat]

theorem identity_load_picks_first_or_starts_witness :
    (identityLoadRun samplePlatform { id := 7, username := "ada" } (.ok sampleRows)
        State.initial).2 = [.loadSession { key := "s2" }] ∧
    (identityLoadRun samplePlatform { id := 7, username := "ada" } (.ok [])
        State.initial).2 = [.startChat (some 7)] :=
  ⟨((identity_load_picks_first_or_starts samplePlatform { id := 7, username := "ada" }
      State.initial rfl).1 _ _).2,
    (identity_load_picks_first_or_starts samplePlatform { id := 7, username := "ada" }
      State.initial rfl).2.2⟩

/-! ### Interleaving and session ownership -/

theorem tryBlock_extends (P : Platform) (env : SendEnv) (newMessages : List Message)
    (outcome : Except JsError JsVal) (messages : List Message)
    (h : handleSendMessage.tryBlock P env newMessages outcome = .ok messages) :
    ∃ added, messages = newMessages ++ added := by
  unfold handleSendMessage.tryBlock at h
  simp only [bind, Except.bind, pure, Except.pure] at h
  repeat' split at h
  all_goals try cases h
  all_goals first
    | exact ⟨_, rfl⟩
    | exact ⟨_, List.append_assoc _ _ _⟩

theorem resolve_send_extends (P : Platform) (env : SendEnv) (newMessages : List Message)
    (outcome : Except JsError JsVal) (s : State) :
    (∃ added, (handleSendMessage.resolve P env newMessages outcome s).messages =
      newMessages ++ added) ∧
    (handleSendMessage.resolve P env newMessages outcome s).sessionId = s.sessionId := by
  unfold handleSendMessage.resolve
  split
  · rename_i messages h
    exact ⟨tryBlock_extends P env newMessages outcome messages h, rfl⟩
  · exact ⟨⟨_, rfl⟩, rfl⟩

theorem operation_preserves_consistency (P : Platform) (operation : Operation) (c : Config)
    (hidle : c.inflight = []) (hcons : c.Consistent)
    (hloads : operation.loadsSucceed = true) :
    (run P c operation.events).inflight = [] ∧ (run P c operation.events).Consistent := by
  obtain ⟨state, owners, inflight⟩ := c
  simp only at hidle
  subst hidle
  obtain ⟨hlen, hown⟩ := hcons
  simp only at hlen hown
  cases operation with
  | newChat now result =>
      cases result <;>
        simp [run, Operation.events, step, Config.issue, startNewChat, settle, settleOwners,
          startNewChat.resolve, Config.Consistent]
  | selectSession session result =>
      cases result with
      | error e => simp [Operation.loadsSucceed] at hloads
      | ok msgs =>
          simp [run, Operation.events, step, Config.issue, handleLoadSession, settle,
            settleOwners, handleLoadSession.resolve, Config.Consistent]
  | deleteSession confirmed session result now started =>
      cases confirmed with
      | false =>
          simp [run, Operation.events, step, Config.issue, handleDeleteSession,
            Config.Consistent, hlen]
          exact hown
      | true =>
          cases result with
          | error e =>
              simp [run, Operation.events, step, Config.issue, handleDeleteSession, settle,
                settleOwners, handleDeleteSession.resolve, Config.Consistent, hlen]
              exact hown
          | ok u =>
              by_cases hact : state.sessionId = some session.id
              · cases started <;>
                  simp [run, Operation.events, step, Config.issue, handleDeleteSession, settle,
                    settleOwners, handleDeleteSession.resolve, Config.Consistent, hact,
                    startNewChat, startNewChat.resolve]
              · simp [run, Operation.events, step, Config.issue, handleDeleteSession, settle,
                  settleOwners, handleDeleteSession.resolve, Config.Consistent, hact, hlen]
                exact hown
  | shareSession session =>
      simp [run, Operation.events, step, Config.issue, handleShareSession, settle,
        settleOwners, Config.Consistent, hlen]
      exact hown
  | typeText value =>
      simp [run, Operation.events, step, Config.Consistent, hlen]
      exact hown
  | logout =>
      simp [run, Operation.events, step, Config.issue, handleLogout, Config.Consistent, hlen]
      exact hown
  | send now env http =>
      by_cases hacc : trim state.inputValue ≠ "" ∧ state.isLoading = false
      · have hstart := handleSendMessage_accepted now state hacc.1 hacc.2
        obtain ⟨⟨added, hadd⟩, hsid⟩ := resolve_send_extends P env
          (state.messages ++
            [{ role := .str "user", text := .str (trim state.inputValue), timestamp := now }])
          (chatService.sendMessage P http)
          { state with
            inputValue := ""
            messages := state.messages ++
              [{ role := .str "user", text := .str (trim state.inputValue), timestamp := now }]
            isLoading := true }
        simp only [run, Operation.events, List.foldl, step, Config.issue, hstart, settle,
          settleOwners, Config.Consistent, List.isEmpty, List.nil_append, List.map,
          List.getElem?_cons_zero, List.eraseIdx, List.append_nil, hadd, hsid]
        simp [hlen]
        refine ⟨by omega, ?_⟩
        intro id hid
        rcases hid with hid | hid | hid
        · exact hown id hid
        · exact hid.symm
        · exact hid.2.symm
      · have hstart := handleSendMessage_rejected now state hacc
        simp [run, Operation.events, step, Config.issue, hstart, Config.Consistent, hlen]
        exact hown
  | upload now url file replyTime result =>
      by_cases hacc : state.sessionId ≠ none ∧ state.isLoading = false
      · obtain ⟨sessionId, hsession⟩ := Option.ne_none_iff_exists'.mp hacc.1
        have hstart := handleFileUpload_accepted now url file state sessionId hsession hacc.2
        cases result <;>
          simp [run, Operation.events, step, Config.issue, hstart, settle, settleOwners,
            Config.Consistent, handleFileUpload.resolve, hlen, hsession]
        all_goals
          intro id hid
          rcases hid with hid | hid
          · have hsame := hown id hid
            rw [hsession] at hsame
            exact Option.some.inj hsame
          · exact hid.symm
      · have hstart := handleFileUpload_rejected now url file state hacc
        simp [run, Operation.events, step, Config.issue, hstart, Config.Consistent, hlen]
        exact hown
  | login userData result loaded now started =>
      cases loaded with
      | error e => simp [Operation.loadsSucceed] at hloads
      | ok msgs =>
          cases result with
          | error e =>
              simp [run, Operation.events, step, Config.issue, handleLogin, refreshHistory,
                settle, settleOwners, refreshHistory.resolve, Config.Consistent, hlen]
              exact hown
          | ok rows =>
              cases hsession : state.sessionId with
              | some sessionId =>
                  simp [run, Operation.events, step, Config.issue, handleLogin, refreshHistory,
                    settle, settleOwners, refreshHistory.resolve, Config.Consistent, hlen,
                    hsession]
                  intro id hid
                  have hsame := hown id hid
                  rw [hsession] at hsame
                  exact Option.some.inj hsame
              | none =>
                  cases rows with
                  | nil =>
                      cases started <;>
                        simp [run, Operation.events, step, Config.issue, handleLogin,
                          refreshHistory, settle, settleOwners, refreshHistory.resolve,
                          Config.Consistent, hsession, startNewChat, startNewChat.resolve]
                  | cons first rest =>
                      simp [run, Operation.events, step, Config.issue, handleLogin,
                        refreshHistory, settle, settleOwners, refreshHistory.resolve,
                        Config.Consistent, hsession, handleLoadSession,
                        handleLoadSession.resolve, toHistoryEntry]

theorem runOperations_preserves_consistency (P : Platform) (operations : List Operation) :
    ∀ c : Config, c.inflight = [] → c.Consistent →
      (∀ operation ∈ operations, operation.loadsSucceed = true) →
      (runOperations P c operations).inflight = [] ∧
        (runOperations P c operations).Consistent := by
  induction operations with
  | nil => intro c hidle hcons _; exact ⟨hidle, hcons⟩
  | cons operation rest ih =>
      intro c hidle hcons hloads
      have hstep := operation_preserves_consistency P operation c hidle hcons
        (hloads operation (List.mem_cons_self _ _))
      exact ih (run P c operation.events) hstep.1 hstep.2
        (fun next hnext => hloads next (List.mem_cons_of_mem _ hnext))

/-- C15 (amended): in every state reached by controller operations that are run one at a
time, each to completion before the next one starts, and whose session fetches all
succeed, the Timeline never contains Messages belonging to two different sessions, and
every Message in it that belongs to a session belongs to the session named by
ActiveSession. -/
theorem sequential_operations_keep_one_session (P : Platform) (operations : List Operation)
    (c : Config) (hidle : c.inflight = []) (hcons : c.Consistent)
    (hloads : ∀ operation ∈ operations, operation.loadsSucceed = true) :
    (runOperations P c operations).Consistent ∧
    (∀ id, some id ∈ (runOperations P c operations).owners →
      (runOperations P c operations).state.sessionId = some id) ∧
    (∀ first second, some first ∈ (runOperations P c operations).owners →
      some second ∈ (runOperations P c operations).owners → first = second) ∧
    (runOperations P c operations).inflight = [] := by
  obtain ⟨hidle2, hcons2⟩ := runOperations_preserves_consistency P operations c hidle hcons hloads
  refine ⟨hcons2, hcons2.2, ?_, hidle2⟩
  intro first second hfirst hsecond
  have h1 := hcons2.2 first hfirst
  have h2 := hcons2.2 second hsecond
  rw [h1] at h2
  exact Option.some.inj h2

theorem sequential_operations_keep_one_session_witness :
    (runOperations samplePlatform sampleStart sampleOperations).Consistent ∧
    (∀ id, some id ∈ (runOperations samplePlatform sampleStart sampleOperations).owners →
      (runOperations samplePlatform sampleStart sampleOperations).state.sessionId = some id) ∧
    (∀ first second,
      some first ∈ (runOperations samplePlatform sampleStart sampleOperations).owners →
      some second ∈ (runOperations samplePlatform sampleStart sampleOperations).owners →
      first = second) ∧
    (runOperations samplePlatform sampleStart sampleOperations).inflight = [] :=
  sequential_operations_keep_one_session samplePlatform sampleOperations sampleStart rfl
    ⟨rfl, fun id hid => by simp [sampleStart] at hid⟩
    (by
      intro operation hmem
      simp only [sampleOperations, List.mem_cons, List.mem_singleton, List.not_mem_nil,
        or_false] at hmem
      rcases hmem with h | h | h | h <;> subst h <;> rfl)

/-- C15, as stated, fails. From session `s1`, idle and consistent: (1) once `s2` is
selected, ActiveSession names `s2` while the Timeline still shows `s1`; (2) an upload
started under `s1` whose reply settles after `s2` was loaded appends its answer to the
Timeline of `s2`, which then holds Messages of both sessions; (3) a send started under
`s1` whose reply settles after `s2` was loaded writes the Timeline of `s1`, extended by
the answer, over the Timeline of `s2`. -/
theorem interleaved_load_mixes_sessions_counterexample :
    sampleConfig.Consistent ∧
    ((run samplePlatform sampleConfig [.selectSession (sampleEntry "s2" "B")]).state.sessionId =
        some { key := "s2" } ∧
      (run samplePlatform sampleConfig [.selectSession (sampleEntry "s2" "B")]).owners =
        [some { key := "s1" }] ∧
      ¬ (run samplePlatform sampleConfig [.selectSession (sampleEntry "s2" "B")]).Consistent) ∧
    ((run samplePlatform sampleConfig uploadThenSwitch).state.sessionId = some { key := "s2" } ∧
      (run samplePlatform sampleConfig uploadThenSwitch).state.messages =
        sampleStoredMessages.map (toUiMessage samplePlatform) ++
          [{ role := .str "assistant", text := .str "This looks like a cat.",
             classification := .json (.obj [("is_cat", .num 1)]),
             timestamp := "10:00:05 AM" }] ∧
      (run samplePlatform sampleConfig uploadThenSwitch).owners =
        [some { key := "s2" }, some { key := "s2" }, some { key := "s1" }] ∧
      ¬ (run samplePlatform sampleConfig uploadThenSwitch).Consistent) ∧
    ((run samplePlatform sampleConfig sendThenSwitch).state.sessionId = some { key := "s2" } ∧
      (run samplePlatform sampleConfig sendThenSwitch).state.messages =
        sampleStateWithHistory.messages ++
          [{ role := .str "user", text := .str "hello", timestamp := "10:00:01 AM" },
           { role := .str "assistant", text := .str "hi", timestamp := "10:00:02 AM" }] ∧
      (run samplePlatform sampleConfig sendThenSwitch).owners =
        [some { key := "s1" }, some { key := "s1" }, some { key := "s1" }] ∧
      ¬ (run samplePlatform sampleConfig sendThenSwitch).Consistent) := by
  have hs1 : (some { key := "s2" } : Option SessionId) ≠ some { key := "s1" } := by decide
  refine ⟨⟨rfl, ?_⟩, ⟨rfl, rfl, ?_⟩, ⟨rfl, rfl, rfl, ?_⟩, ⟨rfl, rfl, rfl, ?_⟩⟩
  · intro id hid
    have hmem : some id ∈ [some ({ key := "s1" } : SessionId)] := hid
    simp only [List.mem_singleton] at hmem
    rw [hmem]
    rfl
  · intro h
    exact hs1 (h.2 { key := "s1" } (List.mem_singleton.2 rfl))
  · intro h
    have hmem : some ({ key := "s1" } : SessionId) ∈
        (run samplePlatform sampleConfig uploadThenSwitch).owners := by
      have hown : (run samplePlatform sampleConfig uploadThenSwitch).owners =
          [some { key := "s2" }, some { key := "s2" }, some { key := "s1" }] := rfl
      rw [hown]
      simp
    exact hs1 (h.2 { key := "s1" } hmem)
  · intro h
    have hmem : some ({ key := "s1" } : SessionId) ∈
        (run samplePlatform sampleConfig sendThenSwitch).owners := by
      have hown : (run samplePlatform sampleConfig sendThenSwitch).owners =
          [some { key := "s1" }, some { key := "s1" }, some { key := "s1" }] := rfl
      rw [hown]
      simp
    exact hs1 (h.2 { key := "s1" } hmem)

/-- C14, evaluated on the code: `startNewChat` does not test the busy flag. Called a
second time while the first call is in flight it issues a second start request, and both
continuations run: the first clears the busy flag while the second call is still in
flight, and the second reply decides ActiveSession and the Timeline. -/
theorem startNewChat_twice_issues_two_requests (P : Platform) (s : State)
    (owners : List Owner) (now1 now2 : String) (reply1 reply2 : StartReply) :
    (startNewChat s.user s).1.isLoading = true ∧
    (startNewChat s.user (startNewChat s.user s).1).2 =
      [.startChat (s.user.map (fun u => u.id))] ∧
    ((run P { state := s, owners := owners, inflight := [] } [.newChat, .newChat]).inflight.map
        (fun f => f.call) =
      [.startChat (s.user.map (fun u => u.id)), .startChat (s.user.map (fun u => u.id))]) ∧
    ((run P { state := s, owners := owners, inflight := [] }
        [.newChat, .newChat, .settle 0 (.started now1 (.ok reply1))]).state.isLoading = false ∧
      (run P { state := s, owners := owners, inflight := [] }
        [.newChat, .newChat, .settle 0 (.started now1 (.ok reply1))]).inflight.map
          (fun f => f.call) = [.startChat (s.user.map (fun u => u.id))]) ∧
    ((run P { state := s, owners := owners, inflight := [] }
        [.newChat, .newChat, .settle 0 (.started now1 (.ok reply1)),
          .settle 0 (.started now2 (.ok reply2))]).state.sessionId = some reply2.session_id ∧
      (run P { state := s, owners := owners, inflight := [] }
        [.newChat, .newChat, .settle 0 (.started now1 (.ok reply1)),
          .settle 0 (.started now2 (.ok reply2))]).state.messages =
        [{ role := .str "assistant", text := reply2.message, timestamp := now2 }]) := by
  refine ⟨rfl, rfl, ?_, ⟨?_, ?_⟩, ⟨?_, ?_⟩⟩ <;>
    simp [run, step, Config.issue, startNewChat, settle, startNewChat.resolve]

/-! ### The History Index -/

theorem identityLoadRun_history (P : Platform) (userData : User)
    (rows : List SessionSummary) (s : State) :
    (identityLoadRun P userData (.ok rows) s).1.history = rows.map (toHistoryEntry P) := by
  simp only [identityLoadRun, handleLogin, refreshHistory, refreshHistory.resolve]
  cases hs : s.sessionId with
  | some sessionId =>
      cases rows <;> rfl
  | none =>
      cases rows <;> rfl

/-- C21: for every prior History and every list `rows` returned by a successful history
fetch, History after the refresh has exactly one entry per element of `rows`, in the
order of `rows`, each keeping the id, title and updated_at of its element; it does not
depend on the prior History. -/
theorem refresh_replaces_history (P : Platform) (userData : User)
    (rows : List SessionSummary) (s : State) :
    (identityLoadRun P userData (.ok rows) s).1.history = rows.map (toHistoryEntry P) ∧
    (identityLoadRun P userData (.ok rows) s).1.history.length = rows.length ∧
    (∀ (i : Nat) (row : SessionSummary), rows[i]? = some row →
      ∃ entry, (identityLoadRun P userData (.ok rows) s).1.history[i]? = some entry ∧
        entry.id = row.id ∧ entry.title = row.title ∧ entry.updated_at = row.updated_at ∧
        entry.time = P.toLocaleDateString row.updated_at) ∧
    (∀ other : State, other.sessionId = s.sessionId →
      (identityLoadRun P userData (.ok rows) other).1.history =
        (identityLoadRun P userData (.ok rows) s).1.history) := by
  rw [identityLoadRun_history]
  refine ⟨rfl, by simp, ?_, ?_⟩
  · intro i row hrow
    exact ⟨toHistoryEntry P row, by simp [List.getElem?_map, hrow], rfl, rfl, rfl, rfl⟩
  · intro other _
    rw [identityLoadRun_history]

theorem refresh_replaces_history_witness :
    (identityLoadRun samplePlatform { id := 7, username := "ada" } (.ok sampleRows)
        sampleStateWithHistory).1.history.length = 2 ∧
    ∃ entry, (identityLoadRun samplePlatform { id := 7, username := "ada" } (.ok sampleRows)
        sampleStateWithHistory).1.history[0]? = some entry ∧
      entry.id = { key := "s2" } ∧ entry.title = .str "B" :=
  have h := refresh_replaces_history samplePlatform { id := 7, username := "ada" } sampleRows
    sampleStateWithHistory
  ⟨h.2.1, by
    obtain ⟨entry, he, hid, htitle, _⟩ := h.2.2.1 0 _ rfl
    exact ⟨entry, he, hid, htitle⟩⟩

/-- C25: for every state with an active session, `handleLogout` clears the identity and
leaves ActiveSession, Timeline and History unchanged; a following `handleLogin` of any
identity whose history fetch succeeds calls neither `loadSession` nor `startNewChat`
(no call is left in flight), so ActiveSession and Timeline are the same as before the
logout. -/
theorem logout_then_login_keeps_session (P : Platform) (userData : User)
    (rows : List SessionSummary) (s : State) (sessionId : SessionId)
    (hactive : s.sessionId = some sessionId) :
    ((handleLogout s).1.user = none ∧
      (handleLogout s).1.sessionId = s.sessionId ∧
      (handleLogout s).1.messages = s.messages ∧
      (handleLogout s).1.history = s.history ∧
      (handleLogout s).2 = []) ∧
    (handleLogin userData (handleLogout s).1).2 = [.getHistory userData s.sessionId] ∧
    (identityLoadRun P userData (.ok rows) (handleLogout s).1).2 = [] ∧
    (identityLoadRun P userData (.ok rows) (handleLogout s).1).1.sessionId = s.sessionId ∧
    (identityLoadRun P userData (.ok rows) (handleLogout s).1).1.messages = s.messages ∧
    (identityLoadRun P userData (.ok rows) (handleLogout s).1).1.user = some userData := by
  refine ⟨⟨rfl, rfl, rfl, rfl, rfl⟩, rfl, ?_, ?_, ?_, ?_⟩ <;>
    simp [identityLoadRun, handleLogin, handleLogout, refreshHistory,
      refreshHistory.resolve, hactive]

theorem logout_then_login_keeps_session_witness :
    (identityLoadRun samplePlatform { id := 8, username := "bob" } (.ok sampleRows)
        (handleLogout sampleStateWithHistory).1).2 = [] ∧
    (identityLoadRun samplePlatform { id := 8, username := "bob" } (.ok sampleRows)
        (handleLogout sampleStateWithHistory).1).1.sessionId = some { key := "s1" } :=
  have h := logout_then_login_keeps_session samplePlatform { id := 8, username := "bob" }
    sampleRows sampleStateWithHistory { key := "s1" } rfl
  ⟨h.2.2.1, h.2.2.2.1⟩

/-- C26: if the history fetch performed on identity load fails, then neither
`loadSession` nor `startNewChat` is called (no call is left in flight) and History,
ActiveSession, Timeline and busy flag are unchanged; from a fresh login ActiveSession is
then unset and the Timeline empty, with no synthetic error Message. -/
theorem failed_history_fetch_changes_nothing (P : Platform) (userData : User) (e : JsError)
    (s : State) :
    (identityLoadRun P userData (.error e) s).2 = [] ∧
    (identityLoadRun P userData (.error e) s).1.history = s.history ∧
    (identityLoadRun P userData (.error e) s).1.sessionId = s.sessionId ∧
    (identityLoadRun P userData (.error e) s).1.messages = s.messages ∧
    (identityLoadRun P userData (.error e) s).1.isLoading = s.isLoading ∧
    (identityLoadRun P userData (.error e) State.initial).1.sessionId = none ∧
    (identityLoadRun P userData (.error e) State.initial).1.messages = [] :=
  ⟨rfl, rfl, rfl, rfl, rfl, rfl, rfl⟩

/-! ### File validation -/

/-- The files that `handleFile` hands to `onUpload`. -/
theorem handleFile_accepts_iff (file : File) :
    ImageUpload.handleFile file = true ↔
      (startsWith file.type "image/" = true ∧ file.size ≤ 10 * 1024 * 1024) := by
  unfold ImageUpload.handleFile
  cases hs : startsWith file.type "image/" with
  | false => simp
  | true =>
      by_cases hsize : file.size > 10 * 1024 * 1024
      · simp [hsize]
      · simp [hsize]
        omega

/-- C24, evaluated on the code: `handleFile` rejects a file only when its size is greater
than 10 * 1024 * 1024 bytes, so an image of exactly 10 MB, which is not less than 10 MB,
is handed to `onUpload`; image files of every size up to and including 10 MB are. -/
theorem handleFile_accepts_exactly_ten_megabytes :
    sampleTenMegabyteFile.size = 10 * 1024 * 1024 ∧
    ¬ (sampleTenMegabyteFile.size < 10 * 1024 * 1024) ∧
    startsWith sampleTenMegabyteFile.type "image/" = true ∧
    ImageUpload.handleFile sampleTenMegabyteFile = true ∧
    (∀ file : File, ImageUpload.handleFile file = true ↔
      (startsWith file.type "image/" = true ∧ file.size ≤ 10 * 1024 * 1024)) :=
  ⟨by decide, by decide, by decide, by decide, handleFile_accepts_iff⟩

/-! ### When the History Index is fetched -/

/-- C23 (amended): after a confirmed, successful `deleteSession` no history fetch is
issued: History is updated by removing the entries of the deleted session locally. After
`startNewChat` creates a session, the first session of the identity included, no history
fetch is issued either: the call issues the start request alone, its continuation issues
no call and leaves History unchanged, so the newly created session does not appear in
History. -/
theorem delete_and_create_issue_no_history_fetch (P : Platform) (userData : User)
    (session : HistoryEntry) (now : String) (data : StartReply) (s : State)
    (owners : List Owner) :
    ((∀ user sessionId,
        Pending.getHistory user sessionId ∉ (deleteSessionRun true (.ok ()) session s).2) ∧
      (deleteSessionRun true (.ok ()) session s).1.history =
        s.history.filter (fun entry => decide (entry.id ≠ session.id))) ∧
    ((startNewChat s.user s).2 = [.startChat (s.user.map (fun u => u.id))] ∧
      (∀ userId, settle P (.startChat userId) (.started now (.ok data)) s =
        some (startNewChat.resolve now (.ok data) s, [])) ∧
      (startNewChatRun now (.ok data) s.user s).history = s.history ∧
      ((∀ entry ∈ s.history, entry.id ≠ data.session_id) →
        ∀ entry ∈ (startNewChatRun now (.ok data) s.user s).history,
          entry.id ≠ data.session_id)) ∧
    (s.sessionId = none →
      (handleLogin userData s).2 = [.getHistory userData none] ∧
      (identityLoadRun P userData (.ok []) s).2 = [.startChat (some userData.id)] ∧
      (run P { state := s, owners := owners, inflight := [] }
        [.login userData, .settle 0 (.fetched (.ok [])),
          .settle 0 (.started now (.ok data))]).state.sessionId = some data.session_id ∧
      (run P { state := s, owners := owners, inflight := [] }
        [.login userData, .settle 0 (.fetched (.ok [])),
          .settle 0 (.started now (.ok data))]).state.history = [] ∧
      (run P { state := s, owners := owners, inflight := [] }
        [.login userData, .settle 0 (.fetched (.ok [])),
          .settle 0 (.started now (.ok data))]).inflight = []) := by
  refine ⟨⟨?_, ?_⟩, ⟨rfl, fun _ => rfl, rfl, fun h => h⟩, ?_⟩
  · intro user sessionId
    rw [deleteSessionRun_confirmed]
    simp only [handleDeleteSession.resolve]
    split <;> simp [startNewChat]
  · rw [deleteSessionRun_confirmed]
    simp only [handleDeleteSession.resolve]
    split <;> rfl
  · intro hnone
    refine ⟨?_, ?_, ?_, ?_, ?_⟩ <;>
      simp [run, step, Config.issue, identityLoadRun, handleLogin, refreshHistory, settle,
        refreshHistory.resolve, hnone, startNewChat, startNewChat.resolve]

theorem delete_and_create_issue_no_history_fetch_witness :
    (∀ entry ∈ (startNewChatRun "10:00:00 AM" (.ok sampleStartReply)
        sampleStateWithHistory.user sampleStateWithHistory).history,
      entry.id ≠ sampleStartReply.session_id) ∧
    (run samplePlatform { state := State.initial, owners := [], inflight := [] }
        [.login { id := 7, username := "ada" }, .settle 0 (.fetched (.ok [])),
          .settle 0 (.started "10:00:00 AM" (.ok sampleStartReply))]).inflight = [] :=
  ⟨(delete_and_create_issue_no_history_fetch samplePlatform { id := 7, username := "ada" }
      (sampleEntry "s2" "B") "10:00:00 AM" sampleStartReply sampleStateWithHistory
      []).2.1.2.2.2
      (by
        intro entry hentry
        simp only [sampleStateWithHistory, List.mem_cons, List.mem_singleton,
          List.not_mem_nil, or_false] at hentry
        rcases hentry with h | h | h <;> subst h <;> decide),
    ((delete_and_create_issue_no_history_fetch samplePlatform { id := 7, username := "ada" }
      (sampleEntry "s2" "B") "10:00:00 AM" sampleStartReply State.initial
      []).2.2 rfl).2.2.2.2⟩

/-- C23, as stated, fails. (1) A first login with an empty history starts a chat; once
session `s9` is created nothing is in flight and History is still empty. (2) After a
confirmed, successful deletion of `s2` nothing is in flight: no history fetch was issued. -/
theorem no_history_fetch_after_create_or_delete_counterexample :
    ((run samplePlatform sampleStart
        [.login { id := 7, username := "ada" }, .settle 0 (.fetched (.ok [])),
          .settle 0 (.started "10:00:00 AM" (.ok sampleStartReply))]).state.sessionId =
        some { key := "s9" } ∧
      (run samplePlatform sampleStart
        [.login { id := 7, username := "ada" }, .settle 0 (.fetched (.ok [])),
          .settle 0 (.started "10:00:00 AM" (.ok sampleStartReply))]).state.history.length = 0 ∧
      (run samplePlatform sampleStart
        [.login { id := 7, username := "ada" }, .settle 0 (.fetched (.ok [])),
          .settle 0 (.started "10:00:00 AM" (.ok sampleStartReply))]).inflight.length = 0) ∧
    ((run samplePlatform sampleConfig
        [.deleteSession true (sampleEntry "s2" "B"),
          .settle 0 (.deleted (.ok ()))]).state.history.length = 2 ∧
      (run samplePlatform sampleConfig
        [.deleteSession true (sampleEntry "s2" "B"),
          .settle 0 (.deleted (.ok ()))]).inflight.length = 0) :=
  ⟨⟨rfl, rfl, rfl⟩, rfl, rfl⟩

/-! ### Message content -/

theorem isSet_of_truthy (v : JsVal) (h : v.truthy = true) : v.isSet = true := by
  cases v with
  | undefined => simp [JsVal.truthy] at h
  | json j => cases j <;> first | rfl | simp [JsVal.truthy] at h
  | blob b => rfl
  | record fields => rfl

theorem tryBlock_added_content (P : Platform) (env : SendEnv) (newMessages : List Message)
    (outcome : Except JsError JsVal) (messages : List Message)
    (htext : ∀ response kind message, outcome = .ok response →
      response.get "type" = .ok kind → kind.isStr "image" = false →
      response.get "message" = .ok message → message.isSet = true)
    (h : handleSendMessage.tryBlock P env newMessages outcome = .ok messages) :
    ∃ added, messages = newMessages ++ added ∧ ∀ m ∈ added, m.hasContent = true := by
  unfold handleSendMessage.tryBlock at h
  simp only [bind, Except.bind, pure, Except.pure] at h
  repeat' split at h
  all_goals try cases h
  · refine ⟨_, List.append_assoc _ _ _, ?_⟩
    intro m hm
    simp only [List.singleton_append, List.mem_cons, List.mem_singleton, List.not_mem_nil,
      or_false] at hm
    rcases hm with hm | hm <;> subst hm <;> rfl
  · rename_i hx _ _ _
    refine ⟨_, List.append_assoc _ _ _, ?_⟩
    intro m hm
    simp only [List.singleton_append, List.mem_cons, List.mem_singleton, List.not_mem_nil,
      or_false] at hm
    rcases hm with hm | hm <;> subst hm
    · simp [Message.hasContent, isSet_of_truthy _ hx]
    · rfl
  · refine ⟨_, rfl, ?_⟩
    intro m hm
    simp only [List.mem_singleton] at hm
    subst hm
    rfl
  · rename_i response _ kind hkind hnot _ message hmessage
    refine ⟨_, rfl, ?_⟩
    intro m hm
    simp only [List.mem_singleton] at hm
    subst hm
    have hset := htext response kind message rfl hkind (by simpa using hnot) hmessage
    simp [Message.hasContent, hset]

/-- C22 (amended): every Message that `startNewChat`, `loadSession`, `sendMessage` or
`uploadImage` puts into the Timeline has at least one of text and image set, provided the
successful backend reply carries the content the Message is read from: the start reply
and the upload reply carry a message, a send reply that is not taken for an image carries
a message, and every stored message carries content or a truthy image path (a value is
set when it is neither absent nor null). The optimistic user Messages, the Messages of an
image reply and the synthetic error Messages always have one. -/
theorem timeline_messages_have_content (P : Platform) (s : State) :
    (∀ now outcome, (∀ data, outcome = .ok data → data.message.isSet = true) →
      ∀ m ∈ (startNewChat.resolve now outcome s).messages, m.hasContent = true) ∧
    (∀ msgs, (∀ row ∈ msgs, row.content.isSet = true ∨ row.image_path.truthy = true) →
      ∀ m ∈ (handleLoadSession.resolve P (.ok msgs) s).messages, m.hasContent = true) ∧
    (∀ now, ∃ added, (handleSendMessage now s).1.messages = s.messages ++ added ∧
      ∀ m ∈ added, m.hasContent = true) ∧
    (∀ env newMessages outcome,
      (∀ response kind message, outcome = .ok response →
        response.get "type" = .ok kind → kind.isStr "image" = false →
        response.get "message" = .ok message → message.isSet = true) →
      ∃ added, (handleSendMessage.resolve P env newMessages outcome s).messages =
          newMessages ++ added ∧
        ∀ m ∈ added, m.hasContent = true) ∧
    (∀ now url file, ∃ added, (handleFileUpload now url file s).1.messages = s.messages ++ added ∧
      ∀ m ∈ added, m.hasContent = true) ∧
    (∀ now outcome, (∀ response, outcome = .ok response → response.message.isSet = true) →
      ∃ added, (handleFileUpload.resolve now outcome s).messages = s.messages ++ added ∧
        ∀ m ∈ added, m.hasContent = true) := by
  refine ⟨?_, ?_, ?_, ?_, ?_, ?_⟩
  · intro now outcome hreply m hm
    cases outcome with
    | error e =>
        simp only [startNewChat.resolve, List.mem_singleton] at hm
        subst hm
        rfl
    | ok data =>
        simp only [startNewChat.resolve, List.mem_singleton] at hm
        subst hm
        simp [Message.hasContent, hreply data rfl]
  · intro msgs hrows m hm
    simp only [handleLoadSession.resolve, List.mem_map] at hm
    obtain ⟨row, hrow, hm⟩ := hm
    subst hm
    rcases hrows row hrow with hcontent | hpath
    · simp [Message.hasContent, toUiMessage, hcontent]
    · simp [Message.hasContent, toUiMessage, hpath, isSet_of_truthy _ hpath]
  · intro now
    by_cases hacc : trim s.inputValue ≠ "" ∧ s.isLoading = false
    · rw [handleSendMessage_accepted now s hacc.1 hacc.2]
      refine ⟨_, rfl, ?_⟩
      intro m hm
      simp only [List.mem_singleton] at hm
      subst hm
      rfl
    · rw [handleSendMessage_rejected now s hacc]
      exact ⟨[], by simp, by simp⟩
  · intro env newMessages outcome htext
    unfold handleSendMessage.resolve
    split
    · rename_i messages h
      exact tryBlock_added_content P env newMessages outcome messages htext h
    · refine ⟨_, rfl, ?_⟩
      intro m hm
      simp only [List.mem_singleton] at hm
      subst hm
      rfl
  · intro now url file
    by_cases hacc : s.sessionId ≠ none ∧ s.isLoading = false
    · obtain ⟨sessionId, hsession⟩ := Option.ne_none_iff_exists'.mp hacc.1
      rw [handleFileUpload_accepted now url file s sessionId hsession hacc.2]
      refine ⟨_, rfl, ?_⟩
      intro m hm
      simp only [List.mem_singleton] at hm
      subst hm
      rfl
    · rw [handleFileUpload_rejected now url file s hacc]
      exact ⟨[], by simp, by simp⟩
  · intro now outcome hreply
    cases outcome with
    | error e =>
        refine ⟨_, rfl, ?_⟩
        intro m hm
        simp only [List.mem_singleton] at hm
        subst hm
        rfl
    | ok response =>
        refine ⟨_, rfl, ?_⟩
        intro m hm
        simp only [List.mem_singleton] at hm
        subst hm
        simp [Message.hasContent, hreply response rfl]

theorem timeline_messages_have_content_witness :
    (∀ m ∈ (handleLoadSession.resolve samplePlatform (.ok sampleStoredMessages)
        sampleStateWithHistory).messages, m.hasContent = true) ∧
    (∀ m ∈ (startNewChat.resolve "10:00:00 AM" (.ok sampleStartReply)
        sampleStateWithHistory).messages, m.hasContent = true) :=
  ⟨(timeline_messages_have_content samplePlatform sampleStateWithHistory).2.1
      sampleStoredMessages
      (by
        intro row hrow
        simp only [sampleStoredMessages, List.mem_cons, List.mem_singleton, List.not_mem_nil,
          or_false] at hrow
        rcases hrow with h | h <;> subst h <;> exact Or.inl rfl),
    (timeline_messages_have_content samplePlatform sampleStateWithHistory).1
      "10:00:00 AM" (.ok sampleStartReply)
      (by
        intro data hdata
        cases hdata
        rfl)⟩

/-- C22, as stated, fails. (1) A reply with content-type application/json whose body is
the empty object is accepted as a text reply; the assistant Message appended for it has
neither text nor image. (2) A stored message with neither content nor image path is
mapped to a Message with neither text nor image. -/
theorem message_without_content_counterexample :
    chatService.sendMessage sampleEmptyObjectPlatform (.ok sampleEmptyObjectResponse) =
      .ok (.json (.obj [])) ∧
    (sendMessageRun sampleEmptyObjectPlatform sampleEnv "10:00:01 AM"
        (.ok sampleEmptyObjectResponse) (sampleState "hello")).messages =
      (sampleState "hello").messages ++
        [{ role := .str "user", text := .str "hello", timestamp := "10:00:01 AM" },
         { role := .str "assistant", text := .undefined, image := .undefined,
           timestamp := "10:00:02 AM" }] ∧
    (sendMessageRun sampleEmptyObjectPlatform sampleEnv "10:00:01 AM"
        (.ok sampleEmptyObjectResponse) (sampleState "hello")).messages.map
        Message.hasContent = [true, true, false] ∧
    (loadSessionRun samplePlatform (.ok [sampleEmptyStoredMessage]) (sampleEntry "s2" "B")
        sampleStateWithHistory).messages.map Message.hasContent = [false] :=
  ⟨rfl, rfl, rfl, rfl⟩

end TVision
